import Mathlib

/-!
Verification of the story-teller log-triage pipeline.

Conventions of the embedding:
* Python floats are modelled as exact rationals (`ℚ`); the constants involved
  (0.25, 0.7, …) are exactly representable in binary or the claims are
  insensitive to the representation error.
* Timezone-aware datetimes are modelled as UTC epoch seconds (`ℚ`); parsing of
  ISO-8601 strings (stdlib / dateutil boundary) is passed in as a function
  parameter where a claim needs it.
* Transcendental library calls (`math.log1p`, `math.log2`) are passed in as
  function parameters applied at the same (natural-number) arguments the code
  passes; every theorem either holds for all such parameters or instantiates
  them at arguments where the exact value is an integer.
* Dict mutation is modelled by explicit state passing: a function that mutates
  its argument in place returns the updated record.
-/

namespace StoryTeller

/-- Clip a value into [0,1], Python `max(0.0, min(1.0, x))`. -/
def clip01 (x : ℚ) : ℚ := max 0 (min 1 x)

theorem clip01_nonneg (x : ℚ) : 0 ≤ clip01 x := le_max_left 0 _

theorem clip01_le_one (x : ℚ) : clip01 x ≤ 1 :=
  max_le (by norm_num) (min_le_left 1 x)

/-- Stable insertion (by a rational key) used to model Python's stable `sorted`. -/
def insertLe {α : Type} (key : α → ℚ) (e : α) : List α → List α
  | [] => [e]
  | x :: xs => if key e ≤ key x then e :: x :: xs else x :: insertLe key e xs

/-- Stable sort by a rational key, models Python `sorted(events, key=...)`. -/
def sortLe {α : Type} (key : α → ℚ) : List α → List α
  | [] => []
  | x :: xs => insertLe key x (sortLe key xs)

theorem length_insertLe {α : Type} (key : α → ℚ) (e : α) (l : List α) :
    (insertLe key e l).length = l.length + 1 := by
  induction l with
  | nil => rfl
  | cons x xs ih =>
    by_cases h : key e ≤ key x <;> simp [insertLe, h, ih]

theorem length_sortLe {α : Type} (key : α → ℚ) (l : List α) :
    (sortLe key l).length = l.length := by
  induction l with
  | nil => rfl
  | cons x xs ih => simp [sortLe, length_insertLe, ih]

theorem mem_insertLe {α : Type} (key : α → ℚ) (e a : α) (l : List α) :
    a ∈ insertLe key e l ↔ a = e ∨ a ∈ l := by
  induction l with
  | nil => simp [insertLe]
  | cons x xs ih =>
    by_cases h : key e ≤ key x
    · simp only [insertLe, if_pos h, List.mem_cons]
    · simp only [insertLe, if_neg h, List.mem_cons, ih]
      tauto

theorem mem_sortLe {α : Type} (key : α → ℚ) (a : α) (l : List α) :
    a ∈ sortLe key l ↔ a ∈ l := by
  induction l with
  | nil => simp [sortLe]
  | cons x xs ih =>
    simp only [sortLe, mem_insertLe, ih, List.mem_cons]


/-- `pat` is a leading segment of `hay` (structural, kernel-evaluable). -/
def leadsList : List Char → List Char → Bool
  | [], _ => true
  | _ :: _, [] => false
  | a :: as, b :: bs => a == b && leadsList as bs

/-- Substring occurrence over char lists. -/
def containsSub : List Char → List Char → Bool
  | hay, pat =>
    if leadsList pat hay then true
    else
      match hay with
      | [] => false
      | _ :: t => containsSub t pat

/-- Python `pat in hay` on strings. -/
def strContains (hay pat : String) : Bool := containsSub hay.data pat.data

/-- Python `hay.startswith(pat)`. -/
def strStarts (hay pat : String) : Bool := leadsList pat.data hay.data


/-- ASCII lowercasing (Python `str.lower()` on the ASCII inputs involved). -/
def toLowerA (c : Char) : Char :=
  if 'A' ≤ c ∧ c ≤ 'Z' then Char.ofNat (c.toNat + 32) else c

def lowerStr (s : String) : String := ⟨s.data.map toLowerA⟩

/-- UTC hour of an epoch-seconds instant; models `datetime.hour` of a
UTC-normalized aware datetime. -/
def hourOf (t : ℚ) : ℤ := (⌊t / 3600⌋) % 24

/-! ## Time Analyzer, business-hours/maintenance-corrected variant
(`src/backend/facade/clustering/time_analyzer.py`). -/

namespace FacadeTime

/-- The configuration fields this analyzer reads.  `business_hours` and
`maintenance_windows` are read unconditionally (`_in_business`/`_in_maint`);
they are fields of the richest `AnalysisConfig` variant in the tree
(`service/clustering/config.py`, defaults `(9, 19)` and `[(1, 3)]`). -/
structure TAConfig where
  time_window_threshold : ℚ := 300
  burst_threshold : ℚ := 2/60
  business_hours : ℤ × ℤ := (9, 19)
  maintenance_windows : List (ℤ × ℤ) := [(1, 3)]

/-- An event as this analyzer sees it: only the timestamp is read. -/
structure TEvent where
  timestamp : ℚ

def inBusiness (cfg : TAConfig) (h : ℤ) : Bool :=
  decide (cfg.business_hours.1 ≤ h ∧ h < cfg.business_hours.2)

def inMaint (cfg : TAConfig) (h : ℤ) : Bool :=
  cfg.maintenance_windows.any (fun w => decide (w.1 ≤ h ∧ h < w.2))

/-- Result dict of `detect_burst_pattern`; the duration/density keys are
absent in the fewer-than-two-events branch. -/
structure BurstResult where
  burst_detected : Bool
  burst_intensity : ℚ
  total_duration : Option ℚ
  event_density : Option ℚ

/-- `duration = (last - first).total_seconds() or 1.0` over the time-sorted events. -/
def burstDuration (_cfg : TAConfig) (events : List TEvent) : ℚ :=
  let evs := sortLe (fun e => e.timestamp) events
  let d0 := (evs.getLastD ⟨0⟩).timestamp - (evs.headD ⟨0⟩).timestamp
  if d0 = 0 then 1 else d0

/-- The time-zone discounts: `intensity *= 0.9` if any event hour is in
business hours, `intensity *= 0.85` if any is in a maintenance window. -/
def discountIntensity (cfg : TAConfig) (events : List TEvent) (i0 : ℚ) : ℚ :=
  let evs := sortLe (fun e => e.timestamp) events
  let i1 := if evs.any (fun e => inBusiness cfg (hourOf e.timestamp)) then i0 * (9/10) else i0
  if evs.any (fun e => inMaint cfg (hourOf e.timestamp)) then i1 * (17/20) else i1

/-- `TimeAnalyzer.detect_burst_pattern` of the corrected variant:
`density = n / duration`, `intensity = min(1.0, density / thr)` then the two
discounts; `burst_detected` in the returned dict is `intensity > 1.0`.
(The local `detected = density > thr` of the source is dead code: the
returned flag is recomputed from the discounted intensity.) -/
def detect_burst_pattern (cfg : TAConfig) (events : List TEvent) : BurstResult :=
  if events.length < 2 then ⟨false, 0, none, none⟩
  else
    let duration := burstDuration cfg events
    let density := (events.length : ℚ) / duration
    let i2 := discountIntensity cfg events (min 1 (density / cfg.burst_threshold))
    ⟨decide (i2 > 1), i2, some duration, some density⟩

theorem discount_le_one {c x : ℚ} (hc0 : 0 ≤ c) (hc1 : c ≤ 1) (hx : x ≤ 1) :
    x * c ≤ 1 := by
  rcases le_total x 0 with h | h
  · calc x * c ≤ 0 := mul_nonpos_of_nonpos_of_nonneg h hc0
    _ ≤ 1 := by norm_num
  · calc x * c ≤ 1 * 1 := mul_le_mul hx hc1 hc0 (by norm_num)
    _ = 1 := by norm_num

theorem discountIntensity_le_one (cfg : TAConfig) (events : List TEvent) {i0 : ℚ}
    (h : i0 ≤ 1) : discountIntensity cfg events i0 ≤ 1 := by
  unfold discountIntensity
  dsimp only
  have h1 : (if (sortLe (fun e => e.timestamp) events).any
      (fun e => inBusiness cfg (hourOf e.timestamp)) then i0 * (9/10) else i0) ≤ 1 := by
    split
    · exact discount_le_one (by norm_num) (by norm_num) h
    · exact h
  split
  · exact discount_le_one (by norm_num) (by norm_num) h1
  · exact h1

end FacadeTime

/-- C8: in the business-hours/maintenance-corrected Time Analyzer variant,
`detect_burst_pattern` never reports a burst: the intensity is
`min(1.0, density/threshold)` possibly multiplied by the discounts 0.9 and
0.85, so it never exceeds 1.0, while the returned flag is `intensity > 1.0`. -/
theorem C8_burst_never_detected (cfg : FacadeTime.TAConfig) (events : List FacadeTime.TEvent) :
    (FacadeTime.detect_burst_pattern cfg events).burst_detected = false := by
  unfold FacadeTime.detect_burst_pattern
  by_cases hlen : events.length < 2
  · simp [hlen]
  · simp only [hlen, if_false]
    exact decide_eq_false (not_lt.mpr
      (FacadeTime.discountIntensity_le_one cfg events (min_le_left _ _)))

/-! ## LogProcessor validation (`src/backend/service/clustering/utils.py`)

`validate_event_data` takes a raw JSON event dict and both checks and rewrites
it in place.  The dict is modelled as a record of optional fields (`none` =
key absent); in-place mutation is modelled by returning the updated record.
ISO-8601 timestamp parsing (`_parse_iso_aware`, a stdlib boundary) is a
function parameter returning the UTC instant together with the
`ts_utc.isoformat()` string written back into the dict. -/

namespace Validate

/-- The five entity list keys `validate_event_data` guarantees
(`ents.setdefault(key, [])`); `none` = key absent. -/
structure EntDict where
  ips : Option (List String) := none
  users : Option (List String) := none
  files : Option (List String) := none
  processes : Option (List String) := none
  domains : Option (List String) := none
deriving DecidableEq

/-- Shape of the `entities` value: `null` is a falsy value (replaced by `{}`
through `event_data.get('entities') or {}`), `notDict` a truthy non-mapping
(rejected by the `isinstance` check), `dict` a mapping. -/
inductive EntShape where
  | null
  | notDict
  | dict (d : EntDict)
deriving DecidableEq

/-- A raw event dict as seen by `validate_event_data`; `none` = key absent. -/
structure RawEvent where
  event_id : Option String := none
  ts : Option String := none
  src_ip : Option String := none
  dst_ip : Option String := none
  msg : Option String := none
  event_type_hint : Option String := none
  severity_hint : Option String := none
  entities : Option EntShape := none
  parsing_confidence : Option ℚ := none
deriving DecidableEq

/-- Numeric value of a digit list (most significant first). -/
def digitsToNat (cs : List Char) : ℕ :=
  cs.foldl (fun n c => n * 10 + (c.toNat - 48)) 0

/-- Split a character list at every `'.'` (semantics of `s.split('.')` /
`String.splitOn "."`, written structurally so it evaluates in the kernel). -/
def splitDot : List Char → List (List Char)
  | [] => [[]]
  | c :: rest =>
    let r := splitDot rest
    if c = '.' then [] :: r
    else
      match r with
      | [] => [[c]]
      | h :: t => (c :: h) :: t

/-- One dotted-quad octet as accepted by `ipaddress.IPv4Address`: decimal
digits only, no leading zero (unless the single digit 0), value ≤ 255. -/
def validOctet : List Char → Bool
  | [] => false
  | c :: rest =>
    (c :: rest).all Char.isDigit && (rest.isEmpty || c != '0') &&
    decide (digitsToNat (c :: rest) ≤ 255)

/-- `ipaddress.IPv4Address(val)` succeeds: a four-part dotted quad of valid
octets. -/
def isValidIPv4 (s : String) : Bool :=
  let parts := splitDot s.data
  parts.length == 4 && parts.all validOctet

/-- The value under an IP key parses as IPv4; an absent key (`None`) never
does. -/
def isValidIPv4Opt : Option String → Bool
  | none => false
  | some s => isValidIPv4 s

/-- `LogProcessor._coerce_ipv4(event_data, 'src_ip')`: an invalid/missing
address is replaced by `"0.0.0.0"` and `parsing_confidence` (default 1.0) is
multiplied by 0.7. -/
def coerceSrc (ev : RawEvent) : RawEvent :=
  if isValidIPv4Opt ev.src_ip then ev
  else { ev with src_ip := some "0.0.0.0",
                 parsing_confidence := some ((ev.parsing_confidence.getD 1) * (7/10)) }

/-- `LogProcessor._coerce_ipv4(event_data, 'dst_ip')`. -/
def coerceDst (ev : RawEvent) : RawEvent :=
  if isValidIPv4Opt ev.dst_ip then ev
  else { ev with dst_ip := some "0.0.0.0",
                 parsing_confidence := some ((ev.parsing_confidence.getD 1) * (7/10)) }

/-- Result of `_parse_iso_aware`: the UTC instant (epoch seconds) and the
`isoformat()` string written back into `event_data['ts']`. -/
structure ParsedTs where
  epoch : ℚ
  iso : String
deriving DecidableEq

/-- The required-field presence loop of `validate_event_data`. -/
def hasRequired (ev : RawEvent) : Bool :=
  ev.event_id.isSome && ev.ts.isSome && ev.src_ip.isSome && ev.dst_ip.isSome &&
  ev.msg.isSome && ev.event_type_hint.isSome && ev.severity_hint.isSome &&
  ev.entities.isSome

/-- `LogProcessor.validate_event_data`: required keys, timestamp
normalization (rejecting unparseable or future instants), IP coercion,
entities shape check and entity-key backfill — returning the acceptance flag
together with the (possibly partially) rewritten dict. -/
def validate_event_data (parseIso : String → Option ParsedTs) (now : ℚ)
    (ev : RawEvent) : Bool × RawEvent :=
  if !hasRequired ev then (false, ev)
  else
    match parseIso (ev.ts.getD "") with
    | none => (false, ev)
    | some p =>
      if p.epoch > now then (false, ev)
      else
        let ev1 : RawEvent := { ev with ts := some p.iso }
        let ev3 := coerceDst (coerceSrc ev1)
        match ev3.entities with
        | some EntShape.notDict => (false, ev3)
        | e =>
          let d : EntDict := match e with
            | some (EntShape.dict d) => d
            | _ => {}
          let d2 : EntDict :=
            { ips := some (d.ips.getD []), users := some (d.users.getD []),
              files := some (d.files.getD []), processes := some (d.processes.getD []),
              domains := some (d.domains.getD []) }
          (true, { ev3 with entities := some (EntShape.dict d2) })

/-- Concrete timestamp parse table used by the closed counterpart facts. -/
def cIso : String → Option ParsedTs := fun s =>
  if s = "2025-01-01T09:00:00" then some ⟨1735689600, "2025-01-01T00:00:00+00:00"⟩
  else none

/-- A record whose `entities` value is a truthy non-mapping: rejected, but
only after its `ts` has been rewritten and its `src_ip` coerced. -/
def cEv : RawEvent :=
  { event_id := some "e1", ts := some "2025-01-01T09:00:00",
    src_ip := some "not-an-ip", dst_ip := some "10.0.0.1", msg := some "m",
    event_type_hint := some "auth", severity_hint := some "info",
    entities := some EntShape.notDict, parsing_confidence := some 1 }

end Validate

/-- C4: a record with all required fields, a parseable non-future timestamp
and an invalid `src_ip` literal is accepted (not rejected); the invalid
address is replaced by `"0.0.0.0"` and `parsing_confidence` (default 1.0) is
multiplied by 0.7 per coerced field — once when `dst_ip` is valid, twice when
both addresses had to be coerced. -/
theorem C4_ip_coercion (parseIso : String → Option Validate.ParsedTs) (now : ℚ)
    (ev : Validate.RawEvent) (p : Validate.ParsedTs)
    (hreq : Validate.hasRequired ev = true)
    (hts : parseIso (ev.ts.getD "") = some p)
    (hpast : ¬ p.epoch > now)
    (hent : ev.entities ≠ some Validate.EntShape.notDict)
    (hsrc : Validate.isValidIPv4Opt ev.src_ip = false) :
    (Validate.validate_event_data parseIso now ev).1 = true ∧
    (Validate.validate_event_data parseIso now ev).2.src_ip = some "0.0.0.0" ∧
    (Validate.validate_event_data parseIso now ev).2.parsing_confidence =
      some (if Validate.isValidIPv4Opt ev.dst_ip
            then (ev.parsing_confidence.getD 1) * (7/10)
            else (ev.parsing_confidence.getD 1) * (7/10) * (7/10)) := by
  unfold Validate.validate_event_data
  rw [hreq, hts]
  simp only [Bool.not_true, Bool.false_eq_true, if_false, hpast, if_neg hpast]
  unfold Validate.coerceSrc Validate.coerceDst
  by_cases hdst : Validate.isValidIPv4Opt ev.dst_ip
  · simp only [hsrc, Bool.false_eq_true, if_false, hdst, if_pos, if_true]
    rcases hents : ev.entities with _ | e
    · simp [Validate.hasRequired, hents] at hreq
    · cases e with
      | null => simp [hents, hdst]
      | notDict => exact absurd hents hent
      | dict d => simp [hents, hdst]
  · simp only [hsrc, Bool.false_eq_true, if_false, hdst, if_neg, if_true]
    rcases hents : ev.entities with _ | e
    · simp [Validate.hasRequired, hents] at hreq
    · cases e with
      | null => simp [hents, hdst]
      | notDict => exact absurd hents hent
      | dict d => simp [hents, hdst]

/-- Witness for C4: a concrete record with `src_ip = "not-an-ip"`, a valid
`dst_ip` and confidence 1.0 is accepted with `src_ip = "0.0.0.0"` and
confidence 0.7. -/
theorem C4_ip_coercion_witness :
    (Validate.validate_event_data Validate.cIso 1800000000
        { Validate.cEv with entities := some (Validate.EntShape.dict {}) }).1 = true ∧
    (Validate.validate_event_data Validate.cIso 1800000000
        { Validate.cEv with entities := some (Validate.EntShape.dict {}) }).2.src_ip =
      some "0.0.0.0" ∧
    (Validate.validate_event_data Validate.cIso 1800000000
        { Validate.cEv with entities := some (Validate.EntShape.dict {}) }).2.parsing_confidence =
      some ((7:ℚ)/10) := by
  have h := C4_ip_coercion Validate.cIso 1800000000
    { Validate.cEv with entities := some (Validate.EntShape.dict {}) }
    ⟨1735689600, "2025-01-01T00:00:00+00:00"⟩
    (by decide) (by decide) (by decide) (by decide) (by decide)
  refine ⟨h.1, h.2.1, ?_⟩
  rw [h.2.2, if_pos (by decide)]
  norm_num [Validate.cEv]

/-- C10: `validate_event_data` is not a pure check.  On every accepted record
the returned (mutated) dict carries the UTC-normalized ISO-8601 `ts`, a
coerced `src_ip` when the original was invalid, and all five entity list
keys; and a rejected record may also have been partially rewritten — the
concrete record `cEv` (whose `entities` is a non-mapping) is rejected with
its `ts` already normalized, so the caller's dict differs from the input. -/
theorem C10_validate_mutates_in_place :
    (∀ (parseIso : String → Option Validate.ParsedTs) (now : ℚ)
        (ev : Validate.RawEvent) (p : Validate.ParsedTs),
      Validate.hasRequired ev = true →
      parseIso (ev.ts.getD "") = some p →
      ¬ p.epoch > now →
      ev.entities ≠ some Validate.EntShape.notDict →
      (Validate.validate_event_data parseIso now ev).2.ts = some p.iso ∧
      (Validate.isValidIPv4Opt ev.src_ip = false →
        (Validate.validate_event_data parseIso now ev).2.src_ip = some "0.0.0.0") ∧
      (∃ d, (Validate.validate_event_data parseIso now ev).2.entities =
              some (Validate.EntShape.dict d) ∧
            d.ips.isSome ∧ d.users.isSome ∧ d.files.isSome ∧
            d.processes.isSome ∧ d.domains.isSome)) ∧
    (Validate.validate_event_data Validate.cIso 1800000000 Validate.cEv).1 = false ∧
    (Validate.validate_event_data Validate.cIso 1800000000 Validate.cEv).2.ts =
      some "2025-01-01T00:00:00+00:00" ∧
    (Validate.validate_event_data Validate.cIso 1800000000 Validate.cEv).2 ≠ Validate.cEv := by
  refine ⟨?_, by decide, by decide, ?_⟩
  · intro parseIso now ev p hreq hts hpast hent
    unfold Validate.validate_event_data
    rw [hreq, hts]
    simp only [Bool.not_true, Bool.false_eq_true, if_false, if_neg hpast]
    unfold Validate.coerceSrc Validate.coerceDst
    rcases hents : ev.entities with _ | e
    · simp [Validate.hasRequired, hents] at hreq
    · cases e with
      | null =>
        by_cases hsrc : Validate.isValidIPv4Opt ev.src_ip <;>
          by_cases hdst : Validate.isValidIPv4Opt ev.dst_ip <;>
          simp [hents, hsrc, hdst]
      | notDict => exact absurd hents hent
      | dict d =>
        by_cases hsrc : Validate.isValidIPv4Opt ev.src_ip <;>
          by_cases hdst : Validate.isValidIPv4Opt ev.dst_ip <;>
          simp [hents, hsrc, hdst]
  · intro hEq
    have := congrArg Validate.RawEvent.ts hEq
    revert this
    decide

/-- Witness for C10: the universally quantified acceptance clause applied to a
concrete record with invalid `src_ip` and empty entities dict. -/
theorem C10_witness :
    (Validate.validate_event_data Validate.cIso 1800000000
        { Validate.cEv with entities := some (Validate.EntShape.dict {}) }).2.ts =
      some "2025-01-01T00:00:00+00:00" ∧
    (Validate.validate_event_data Validate.cIso 1800000000
        { Validate.cEv with entities := some (Validate.EntShape.dict {}) }).2.src_ip =
      some "0.0.0.0" ∧
    (∃ d, (Validate.validate_event_data Validate.cIso 1800000000
            { Validate.cEv with entities := some (Validate.EntShape.dict {}) }).2.entities =
          some (Validate.EntShape.dict d) ∧
          d.ips.isSome ∧ d.users.isSome ∧ d.files.isSome ∧
          d.processes.isSome ∧ d.domains.isSome) := by
  have h := C10_validate_mutates_in_place.1 Validate.cIso 1800000000
    { Validate.cEv with entities := some (Validate.EntShape.dict {}) }
    ⟨1735689600, "2025-01-01T00:00:00+00:00"⟩
    (by decide) (by decide) (by decide) (by decide)
  exact ⟨h.1, h.2.1 (by decide), h.2.2⟩

/-! ## Narrative generation, LLM-backed (`src/backend/facade/gemini_agent.py`)

`GeminiAgent.request` builds a prompt, calls the backend up to
`max_retries + 1` times, validates each parsed candidate against the
schema-A validator `_validate_response_json`, writes the first valid object
to `story_output.json`, and raises `SystemExit` once attempts are exhausted.
The external call + code-fence stripping + `json.loads` of one attempt is
modelled as an `Except`-valued outcome parameter; the state of the output
file at the end is the function's result (`none` = never written). -/

namespace Narr

/-- A parsed JSON value (result of `json.loads` on the extracted span). -/
inductive JVal where
  | null
  | bool (b : Bool)
  | num (q : ℚ)
  | str (s : String)
  | arr (xs : List JVal)
  | obj (fields : List (String × JVal))

/-- Key lookup in a JSON object (Python dict keys are unique; first match). -/
def lookup : List (String × JVal) → String → Option JVal
  | [], _ => none
  | (k, v) :: rest, key => if k = key then some v else lookup rest key

/-- Structural whitespace trim (Python `str.strip()`). -/
def trimChars (cs : List Char) : List Char :=
  ((cs.dropWhile Char.isWhitespace).reverse.dropWhile Char.isWhitespace).reverse

/-- `x.strip().startswith("1.") or x.strip()[0].isdigit()`.  An empty string
raises IndexError in the source, which aborts validation exactly like a
ValueError does, so it is modelled as `false`. -/
def isNumbered (s : String) : Bool :=
  match trimChars s.data with
  | [] => false
  | c :: rest =>
    match c, rest with
    | '1', '.' :: _ => true
    | _, _ => c.isDigit

/-- The eight required keys of one `LLM 응답` item. -/
def requiredKeysA : List String :=
  ["현재상황", "예상시나리오", "심각도", "위험도점수", "추정정확도", "영향범위", "근거", "권장대응"]

/-- Validation of one item of the `LLM 응답` array (key presence, numbered
recommendation strings, array-typed 영향범위, non-empty 근거, and the two
numeric range checks).  Any exception in the source (missing key, wrong
type, out-of-range number) makes the attempt fail, modelled as `false`. -/
def validItemA (it : JVal) : Bool :=
  match it with
  | .obj fs =>
    requiredKeysA.all (fun k => (lookup fs k).isSome) &&
    (match lookup fs "권장대응" with
     | some (.arr xs) =>
         xs.all (fun x => match x with | .str s => isNumbered s | _ => false)
     | _ => false) &&
    (match lookup fs "영향범위" with | some (.arr _) => true | _ => false) &&
    (match lookup fs "근거" with | some (.arr xs) => !xs.isEmpty | _ => false) &&
    (match lookup fs "위험도점수" with
     | some (.num q) => decide (0 ≤ q ∧ q ≤ 10) | _ => false) &&
    (match lookup fs "추정정확도" with
     | some (.num q) => decide (0 ≤ q ∧ q ≤ 1) | _ => false)
  | _ => false

/-- `GeminiAgent._validate_response_json` (schema A): the top level is an
object whose `LLM 응답` key holds a non-empty array of valid items. -/
def validateA (o : JVal) : Bool :=
  match o with
  | .obj fs =>
    match lookup fs "LLM 응답" with
    | some (.arr items) => !items.isEmpty && items.all validItemA
    | _ => false
  | _ => false

/-- `max_retries` is hard-coded to 3 in `GeminiAgent.request`. -/
def max_retries : ℕ := 3

/-- The retry loop: attempt `k`, then up to `n - 1` further attempts.  An
upstream error or a candidate failing validation falls through to the next
attempt (the quota branch only shrinks the prompt for later attempts, which
the outcome function already accounts for); a validated candidate is
written and returned; exhaustion returns `none` (SystemExit, nothing
written). -/
def requestFrom (outcome : ℕ → Except String JVal) : ℕ → ℕ → Option JVal
  | _, 0 => none
  | k, n + 1 =>
    match outcome k with
    | .error _ => requestFrom outcome (k + 1) n
    | .ok o => if validateA o then some o else requestFrom outcome (k + 1) n

/-- `GeminiAgent.request`: the final content of the narrative output file
(`none` = the run ended in SystemExit and no file was written). -/
def gemini_request (outcome : ℕ → Except String JVal) : Option JVal :=
  requestFrom outcome 0 (max_retries + 1)

theorem requestFrom_none (outcome : ℕ → Except String JVal) :
    ∀ n k, (∀ j o, j < k + n → outcome j = .ok o → validateA o = false) →
      requestFrom outcome k n = none := by
  intro n
  induction n with
  | zero => intro k _; rfl
  | succ m ih =>
    intro k h
    unfold requestFrom
    cases ho : outcome k with
    | error e =>
      exact ih (k + 1) (fun j o hj => h j o (by omega))
    | ok o =>
      dsimp only
      rw [h k o (by omega) ho]
      simp only [Bool.false_eq_true, if_false]
      exact ih (k + 1) (fun j o hj => h j o (by omega))

theorem requestFrom_valid (outcome : ℕ → Except String JVal) :
    ∀ n k o, requestFrom outcome k n = some o → validateA o = true := by
  intro n
  induction n with
  | zero => intro k o h; cases h
  | succ m ih =>
    intro k o h
    unfold requestFrom at h
    cases ho : outcome k with
    | error e => rw [ho] at h; exact ih (k + 1) o h
    | ok o2 =>
      rw [ho] at h
      dsimp only at h
      by_cases hv : validateA o2
      · rw [if_pos hv] at h
        cases h; exact hv
      · rw [if_neg hv] at h
        exact ih (k + 1) o h

end Narr

/-- C3: if every attempt of the narrative generator — the initial call plus
the `max_retries = 3` retries, 4 attempts total — fails with an upstream
error or an invalid candidate, `GeminiAgent.request` terminates fatally with
no output file written (`none`); and whenever an output file is written its
content passed the schema-A validation. -/
theorem C3_narrative_fail_closed :
    (∀ outcome : ℕ → Except String Narr.JVal,
      (∀ j o, j < Narr.max_retries + 1 → outcome j = .ok o → Narr.validateA o = false) →
      Narr.gemini_request outcome = none) ∧
    (∀ (outcome : ℕ → Except String Narr.JVal) (o : Narr.JVal),
      Narr.gemini_request outcome = some o → Narr.validateA o = true) := by
  constructor
  · intro outcome h
    exact Narr.requestFrom_none outcome (Narr.max_retries + 1) 0
      (fun j o hj => h j o (by simpa using hj))
  · intro outcome o h
    exact Narr.requestFrom_valid outcome (Narr.max_retries + 1) 0 o h

/-- Witness for C3: with every attempt failing upstream (HTTP 500), the run
is fatal and no narrative file is written. -/
theorem C3_narrative_fail_closed_witness :
    Narr.gemini_request (fun _ => .error "HTTP 500") = none := by
  apply C3_narrative_fail_closed.1
  intro j o _ h
  cases h

/-! ## Risk Scorer v0.3 (`src/backend/facade/risk/risk_scorer2.py`)

`score_groups` buckets the flattened event stream per (user, src_ip, dst_ip,
event_type_hint), scores each bucket and returns the records sorted by
descending score.  ISO timestamps are modelled as epoch seconds (parsing is
order- and difference-preserving); `math.log2` and the SHA-256 `_hash_key`
are function parameters (applied at the same arguments the code passes). -/

namespace Risk

/-- The fields of one adapted event that `score_groups` reads. -/
structure RiskEvent where
  ts : ℚ
  src_ip : Option String := none
  dst_ip : Option String := none
  event_type_hint : Option String := none
  severity_hint : Option String := none
  source_type : String := ""
  msg : String := ""
  users : List String := []
  files : List String := []
  parsing_confidence : ℚ := 1
deriving DecidableEq

/-- `BASE_TYPE` policy table; the `None` key and the `.get` default are both 3. -/
def BASE_TYPE : List (String × ℤ) :=
  [("authentication", 5), ("auth_failure", 6), ("file_accessed", 6),
   ("process_start", 7), ("network_connection", 6), ("privilege_escalation", 10),
   ("malware_detected", 10), ("data_exfil", 9), ("scan", 4), ("bruteforce", 7),
   ("config_change", 7), ("xss", 6), ("sqli", 8), ("rce", 10), ("other", 3)]

def assocQ {β : Type} : List (String × β) → String → Option β
  | [], _ => none
  | (k, v) :: rest, key => if k = key then some v else assocQ rest key

def baseType : Option String → ℤ
  | none => 3
  | some s => (assocQ BASE_TYPE s).getD 3

/-- `SEVERITY_HINT` policy table; `None`/unknown maps to 3. -/
def sevHint : Option String → ℤ
  | none => 3
  | some s => (assocQ [("info", 2), ("low", 4), ("medium", 6), ("high", 8),
      ("critical", 10)] s).getD 3

/-- `_asset_crit`: file-path hints (per file, first match wins), then a
private-subnet destination hint, then a security-tool source-type hint. -/
def assetCrit (dst_ip : Option String) (files : List String) (source_type : String) : ℤ :=
  match files.findSome? (fun f =>
    if ["/etc/", "/var/www/", "/etc/shadow", "/var/lib/", "/home/"].any
        (fun p => strContains f p) then some (8 : ℤ)
    else if ["/var/log/", "/opt/app/", "/srv/"].any (fun p => strContains f p) then
      some (6 : ℤ)
    else none) with
  | some v => v
  | none =>
    let bySrc : ℤ :=
      if ["auth", "ids", "edr", "db", "firewall"].any (fun t => t = source_type) then 7 else 5
    match dst_ip with
    | some d =>
      if d ≠ "" ∧ (["10.", "172.16.", "172.31.", "192.168."].any (fun p => strStarts d p)) then 6
      else bySrc
    | none => bySrc

/-- `_risk_level` thresholds. -/
def riskLevel (score : ℚ) : String :=
  if score ≥ 17/2 then "Critical"
  else if score ≥ 7 then "High"
  else if score ≥ 9/2 then "Medium"
  else if score ≥ 5/2 then "Low"
  else "Info"

/-- Python `round(x, d)` at non-tie points (all points this development
evaluates it at are non-ties, where half-even and half-up agree). -/
def roundTo (d : ℕ) (x : ℚ) : ℚ := ((round (x * (10 : ℚ) ^ d) : ℤ) : ℚ) / (10 : ℚ) ^ d

/-- The grouping key `(u, src_ip, dst_ip, event_type_hint)`. -/
structure GroupKey where
  user : Option String
  src_ip : Option String
  dst_ip : Option String
  event_type_hint : Option String
deriving DecidableEq

/-- Append an event to its bucket, preserving dict insertion order. -/
def addBucket (bs : List (GroupKey × List RiskEvent)) (k : GroupKey) (e : RiskEvent) :
    List (GroupKey × List RiskEvent) :=
  match bs with
  | [] => [(k, [e])]
  | (k2, es) :: rest =>
    if k2 = k then (k2, es ++ [e]) :: rest else (k2, es) :: addBucket rest k e

/-- The bucket-building loop: each event is filed once per user in
`entities.get("users") or [None]`. -/
def buildBuckets (events : List RiskEvent) : List (GroupKey × List RiskEvent) :=
  events.foldl (fun bs e =>
    let us : List (Option String) :=
      if e.users.isEmpty then [none] else e.users.map some
    us.foldl (fun bs2 u => addBucket bs2 ⟨u, e.src_ip, e.dst_ip, e.event_type_hint⟩ e) bs) []

def maxD (d : ℤ) : List ℤ → ℤ
  | [] => d
  | h :: t => t.foldl max h

def minTsOf (d : ℚ) : List RiskEvent → ℚ
  | [] => d
  | h :: t => t.foldl (fun a e => min a e.ts) h.ts

def maxTsOf (d : ℚ) : List RiskEvent → ℚ
  | [] => d
  | h :: t => t.foldl (fun a e => max a e.ts) h.ts

/-- The pre-rounding `final_score` of one bucket: max type/severity hints,
log-scaled volume, dataset-relative recency, asset criticality, the
confidence adjustment, the [0,10] clip, and the anomaly blend
`base*(1-w) + (base+2)*w*anomaly` clipped again. -/
def finalScore (log2 : ℕ → ℚ) (hashKey : GroupKey → String) (w : ℚ)
    (al : Option (List (String × ℚ))) (minTs spanSec : ℚ)
    (k : GroupKey) (evs : List RiskEvent) : ℚ :=
  let type_score := maxD 3 (evs.map (fun e => baseType e.event_type_hint))
  let severity := maxD 3 (evs.map (fun e => sevHint e.severity_hint))
  let volume := min 10 (3 + log2 (evs.length + 1))
  let last_seen := maxTsOf 0 evs
  let recency := 2 + 8 * ((last_seen - minTs) / spanSec)
  let sample := evs.getLastD { ts := 0 }
  let asset := assetCrit sample.dst_ip sample.files sample.source_type
  let avg_conf := (evs.map (fun e => e.parsing_confidence)).sum / evs.length
  let confidence_adj := (avg_conf - 1/2) * 4
  let base := max 0 (min 10
    ((3/10) * type_score + (1/5) * severity + (1/5) * volume +
     (3/20) * recency + (3/20) * asset + confidence_adj))
  let anomaly01 : ℚ :=
    match al with
    | none => 0
    | some l =>
      match assocQ l (hashKey k) with
      | some v => max 0 (min 1 v)
      | none => 0
  max 0 (min 10 (base * (1 - w) + (base + 2) * w * anomaly01))

/-- One record of the returned `groups` list. -/
structure ScoreRecord where
  cluster_id : String
  risk_score : ℚ
  risk_level : String
  factor_type : ℚ
  factor_severity : ℚ
  factor_volume : ℚ
  factor_recency : ℚ
  factor_asset : ℚ
  factor_confidence_adj : ℚ
  count : ℕ
  first_seen : ℚ
  last_seen : ℚ
  sample_msgs : List String

def mkRecord (log2 : ℕ → ℚ) (hashKey : GroupKey → String) (w : ℚ)
    (al : Option (List (String × ℚ))) (minTs spanSec : ℚ)
    (b : GroupKey × List RiskEvent) : ScoreRecord :=
  let s := finalScore log2 hashKey w al minTs spanSec b.1 b.2
  let evs := b.2
  { cluster_id := hashKey b.1
    risk_score := roundTo 2 s
    risk_level := riskLevel s
    factor_type := roundTo 1 ((maxD 3 (evs.map (fun e => baseType e.event_type_hint)) : ℚ))
    factor_severity := roundTo 1 ((maxD 3 (evs.map (fun e => sevHint e.severity_hint)) : ℚ))
    factor_volume := roundTo 1 (min 10 (3 + log2 (evs.length + 1)))
    factor_recency := roundTo 1 (2 + 8 * ((maxTsOf 0 evs - minTs) / spanSec))
    factor_asset := roundTo 1
      ((assetCrit (evs.getLastD { ts := 0 }).dst_ip (evs.getLastD { ts := 0 }).files
        (evs.getLastD { ts := 0 }).source_type : ℚ))
    factor_confidence_adj := roundTo 1
      (((evs.map (fun e => e.parsing_confidence)).sum / evs.length - 1/2) * 4)
    count := evs.length
    first_seen := minTsOf 0 evs
    last_seen := maxTsOf 0 evs
    sample_msgs := (evs.take 3).map (fun e => e.msg) }

/-- `score_groups`: bucket, score, sort by descending `risk_score` (stable,
modelled by the ascending sort on the negated score). -/
def score_groups (log2 : ℕ → ℚ) (hashKey : GroupKey → String) (w : ℚ)
    (al : Option (List (String × ℚ))) (events : List RiskEvent) :
    List ScoreRecord :=
  if events.isEmpty then []
  else
    let minTs := minTsOf 0 events
    let maxTs := maxTsOf 0 events
    let spanSec := max 1 (maxTs - minTs)
    let recs := (buildBuckets events).map (mkRecord log2 hashKey w al minTs spanSec)
    sortLe (fun r => -r.risk_score) recs

end Risk

namespace Risk

theorem finalScore_bounds (log2 : ℕ → ℚ) (hashKey : GroupKey → String) (w : ℚ)
    (al : Option (List (String × ℚ))) (minTs spanSec : ℚ)
    (k : GroupKey) (evs : List RiskEvent) :
    0 ≤ finalScore log2 hashKey w al minTs spanSec k evs ∧
    finalScore log2 hashKey w al minTs spanSec k evs ≤ 10 := by
  unfold finalScore
  refine ⟨le_max_left 0 _, max_le (by norm_num) (min_le_left 10 _)⟩

theorem roundTo2_bounds {s : ℚ} (h0 : 0 ≤ s) (h10 : s ≤ 10) :
    0 ≤ roundTo 2 s ∧ roundTo 2 s ≤ 10 := by
  unfold roundTo
  have hp : ((10 : ℚ) ^ 2) = 100 := by norm_num
  rw [hp]
  constructor
  · apply div_nonneg _ (by norm_num)
    have h : (0 : ℤ) ≤ round (s * 100) := by
      rw [round_eq]
      apply Int.le_floor.mpr
      push_cast
      nlinarith
    exact_mod_cast h
  · rw [div_le_iff (by norm_num)]
    have h : round (s * 100) ≤ 1000 := by
      rw [round_eq]
      have h2 : ⌊s * 100 + 1/2⌋ < 1001 := Int.floor_lt.mpr (by push_cast; nlinarith)
      omega
    calc ((round (s * 100) : ℤ) : ℚ) ≤ ((1000 : ℤ) : ℚ) := by exact_mod_cast h
    _ = 10 * 100 := by norm_num

theorem riskLevel_mem (s : ℚ) :
    riskLevel s ∈ (["Critical", "High", "Medium", "Low", "Info"] : List String) := by
  unfold riskLevel
  split_ifs <;> simp

end Risk

/-- C5 (amended): every group record returned by `score_groups` has
`risk_score` within [0,10] and `risk_level` one of
Critical/High/Medium/Low/Info; the level is determined by the documented
thresholds applied to the *pre-rounding* final score, of which the record's
`risk_score` is the 2-decimal rounding (so the two can disagree exactly at a
threshold boundary). -/
theorem C5_score_bounds_and_level (log2 : ℕ → ℚ) (hashKey : Risk.GroupKey → String)
    (w : ℚ) (al : Option (List (String × ℚ))) (events : List Risk.RiskEvent)
    (rec : Risk.ScoreRecord)
    (hmem : rec ∈ Risk.score_groups log2 hashKey w al events) :
    (0 ≤ rec.risk_score ∧ rec.risk_score ≤ 10) ∧
    rec.risk_level ∈ (["Critical", "High", "Medium", "Low", "Info"] : List String) ∧
    ∃ s, 0 ≤ s ∧ s ≤ 10 ∧ rec.risk_score = Risk.roundTo 2 s ∧
      rec.risk_level = Risk.riskLevel s := by
  unfold Risk.score_groups at hmem
  by_cases hne : events.isEmpty
  · rw [if_pos hne] at hmem; cases hmem
  · rw [if_neg hne] at hmem
    rw [mem_sortLe] at hmem
    rcases List.mem_map.mp hmem with ⟨b, _, hb⟩
    subst hb
    set s := Risk.finalScore log2 hashKey w al (Risk.minTsOf 0 events)
      (max 1 (Risk.maxTsOf 0 events - Risk.minTsOf 0 events)) b.1 b.2 with hs
    have hbounds := Risk.finalScore_bounds log2 hashKey w al (Risk.minTsOf 0 events)
      (max 1 (Risk.maxTsOf 0 events - Risk.minTsOf 0 events)) b.1 b.2
    rw [← hs] at hbounds
    have hr : (Risk.mkRecord log2 hashKey w al (Risk.minTsOf 0 events)
        (max 1 (Risk.maxTsOf 0 events - Risk.minTsOf 0 events)) b).risk_score =
        Risk.roundTo 2 s := rfl
    have hl : (Risk.mkRecord log2 hashKey w al (Risk.minTsOf 0 events)
        (max 1 (Risk.maxTsOf 0 events - Risk.minTsOf 0 events)) b).risk_level =
        Risk.riskLevel s := rfl
    refine ⟨?_, ?_, s, hbounds.1, hbounds.2, hr, hl⟩
    · rw [hr]; exact Risk.roundTo2_bounds hbounds.1 hbounds.2
    · rw [hl]; exact Risk.riskLevel_mem s

namespace Risk

/-- `math.log2` at the only argument the closed facts below pass (group size
1, so `log2 2 = 1` exactly). -/
def cLog2 : ℕ → ℚ := fun n => (Nat.log2 n : ℚ)

/-- The concrete event of the C5 boundary counterexample: a single rce /
critical event touching `/etc/` with parsing confidence 0.861. -/
def c5ev : RiskEvent :=
  { ts := 0, src_ip := some "1.2.3.4", dst_ip := none,
    event_type_hint := some "rce", severity_hint := some "critical",
    source_type := "", msg := "m", users := [], files := ["/etc/x"],
    parsing_confidence := 861/1000 }

/-- The full record `score_groups` produces for the single `c5ev` event. -/
def c5rec : ScoreRecord :=
  { cluster_id := "g", risk_score := 7, risk_level := "Medium",
    factor_type := 10, factor_severity := 10, factor_volume := 4,
    factor_recency := 2, factor_asset := 8, factor_confidence_adj := 7/5,
    count := 1, first_seen := 0, last_seen := 0, sample_msgs := ["m"] }

end Risk

theorem c5_groups_eq :
    Risk.score_groups Risk.cLog2 (fun _ => "g") (1/5) none [Risk.c5ev] =
      [Risk.c5rec] := by
  have hbt : Risk.baseType (some "rce") = 10 := by decide
  have hsv : Risk.sevHint (some "critical") = 10 := by decide
  have hac : Risk.assetCrit none ["/etc/x"] "" = 8 := by decide
  have hlog : Risk.cLog2 2 = 1 := by simp [Risk.cLog2, Nat.log2]
  have hfs : ∀ k, Risk.finalScore Risk.cLog2 (fun _ => "g") (1/5) none
      (Risk.minTsOf 0 [Risk.c5ev])
      (max 1 (Risk.maxTsOf 0 [Risk.c5ev] - Risk.minTsOf 0 [Risk.c5ev]))
      k [Risk.c5ev] = 4372/625 := by
    intro k
    unfold Risk.finalScore
    simp only [Risk.c5ev, Risk.minTsOf, Risk.maxTsOf, Risk.maxD, List.map_cons,
      List.map_nil, List.foldl_cons, List.foldl_nil, List.length_cons,
      List.length_nil, List.getLastD_cons, List.getLastD_nil, List.sum_cons,
      List.sum_nil, List.foldl_nil, hbt, hsv, hac]
    norm_num [hlog, min_def, max_def]
  have hrs : Risk.roundTo 2 ((4372 : ℚ)/625) = 7 := by
    norm_num [Risk.roundTo, round_eq]
  have hrl : Risk.riskLevel ((4372 : ℚ)/625) = "Medium" := by
    norm_num [Risk.riskLevel]
  have hbb : Risk.buildBuckets [Risk.c5ev] =
      [(⟨none, some "1.2.3.4", none, some "rce"⟩, [Risk.c5ev])] := rfl
  unfold Risk.score_groups
  simp only [List.isEmpty_cons, Bool.false_eq_true, if_false, hbb, List.map_cons,
    List.map_nil, sortLe, insertLe, Risk.mkRecord]
  rw [hfs, hrs, hrl]
  simp only [Risk.c5rec, Risk.c5ev, Risk.maxD, Risk.minTsOf, Risk.maxTsOf,
    List.map_cons, List.map_nil, List.foldl_cons, List.foldl_nil,
    List.getLastD_cons, List.getLastD_nil, List.length_cons, List.length_nil,
    List.sum_cons, List.sum_nil, List.take, hbt, hsv, hac,
    List.cons.injEq, List.nil_eq, and_true, Risk.ScoreRecord.mk.injEq]
  norm_num [Risk.roundTo, round_eq, hlog, min_def, max_def]

/-- C5 counterexample: with the wired defaults (`anomaly_weight = 0.2`, no
anomaly lookup), the single `c5ev` event produces final score
`0.8 * 8.744 = 6.9952`, so the returned record carries `risk_score = 7.0`
(rounded to 2 decimals) together with `risk_level = "Medium"` — but the
claimed thresholds say a returned score of 7.0 is "High".  The level is
computed from the pre-rounding score, not from the returned `risk_score`. -/
theorem C5_counterexample :
    (Risk.score_groups Risk.cLog2 (fun _ => "g") (1/5) none [Risk.c5ev]).map
      (fun r => (r.risk_score, r.risk_level)) = [((7 : ℚ), "Medium")] := by
  rw [c5_groups_eq]
  rfl

/-- Witness for C5: the amended theorem applied to the concrete
single-event run. -/
theorem C5_score_bounds_witness :
    (0 ≤ Risk.c5rec.risk_score ∧ Risk.c5rec.risk_score ≤ 10) ∧
    Risk.c5rec.risk_level ∈
      (["Critical", "High", "Medium", "Low", "Info"] : List String) :=
  let h := C5_score_bounds_and_level Risk.cLog2 (fun _ => "g") (1/5) none
    [Risk.c5ev] Risk.c5rec (by rw [c5_groups_eq]; exact List.mem_singleton_self _)
  ⟨h.1, h.2.1⟩

/-! ## Log Preprocessor ingestion endpoints
(`src/backend/service/preprocessor/api.py`, parsers in `parsers.py`)

The boundary pieces are function parameters: `iso` (dateutil timestamp
parsing), `parseCsv` (the CSV parser, untouched by the inputs this development
evaluates), `looksLikeCsv` (the `csv.Sniffer` heuristic), `extractEntities`
and `inferHints` (the pure regex extractors of `extractors.py`, which cannot
raise).  A file is its name with its decoded text content (the inputs here
are ASCII, where decoding is the identity and the raw bytes are empty exactly
when the content string is).  Random uuids and the per-row `meta` mapping are
dropped: no claim reads them. -/

namespace Pre

structure HttpErr where
  status : ℕ
  detail : String
deriving DecidableEq

/-- A standardized parser row. -/
structure Row where
  ts : Option String := none
  msg : Option String := none
  raw : String := ""
  log_type : Option String := none
  src_ip : Option String := none
  dst_ip : Option String := none
  src_port : Option Int := none
  dst_port : Option Int := none
  proto : Option String := none

structure Entities where
  ips : List String := []
  users : List String := []
  files : List String := []
  processes : List String := []
  domains : List String := []

structure Event where
  ingest_id : String
  ts : String
  source_type : Option String
  src_ip : Option String
  dst_ip : Option String
  src_port : Option Int
  dst_port : Option Int
  proto : Option String
  msg : String
  event_type_hint : Option String
  severity_hint : Option String
  entities : Entities
  raw : String
  parsing_confidence : ℚ

/-- Whitespace tokenization, Python `str.split()`. -/
def splitWsGo : List Char → List Char → List (List Char)
  | [], acc => if acc.isEmpty then [] else [acc.reverse]
  | c :: rest, acc =>
    if c.isWhitespace then
      if acc.isEmpty then splitWsGo rest []
      else acc.reverse :: splitWsGo rest []
    else splitWsGo rest (c :: acc)

def splitWs (s : String) : List String := (splitWsGo s.data []).map (fun l => ⟨l⟩)

def strTrim (s : String) : String := ⟨Narr.trimChars s.data⟩

def joinSp : List String → String
  | [] => ""
  | [x] => x
  | x :: xs => x ++ " " ++ joinSp xs

/-- Line splitting at the newline character (Python `str.splitlines`; a
trailing newline yields one extra empty line here, which `parse_text` skips
either way). -/
def splitNl : List Char → List (List Char)
  | [] => [[]]
  | c :: rest =>
    let r := splitNl rest
    if c = (Char.ofNat 10) then [] :: r
    else
      match r with
      | [] => [[c]]
      | h :: t => (c :: h) :: t

def linesOf (s : String) : List String := (splitNl s.data).map (fun l => ⟨l⟩)

/-- `parse_text`: one record per non-blank line; the timestamp is attempted
from the first two tokens joined, then from the first token alone. -/
def parse_text (iso : String → Option String) (lines : List String) : List Row :=
  lines.filterMap (fun line =>
    let s := strTrim line
    if s = "" then none
    else
      let parts := splitWs s
      let ts := ((iso (joinSp (parts.take 2))).orElse (fun _ => iso (parts.headD "")))
      some { ts := ts, msg := some s, raw := s, log_type := some "text" })

/-- `os.path.splitext(name)[1].lower()` for ordinary file names (a single
leading dot does not start an extension). -/
def fileExt (name : String) : String :=
  match Validate.splitDot name.data with
  | [] => ""
  | [_] => ""
  | h :: rest =>
    if h.isEmpty ∧ rest.length = 1 then ""
    else lowerStr ⟨'.' :: rest.getLastD []⟩

def ALLOWED_EXTS : List String := [".csv", ".log", ".txt"]

/-- `_rows_from_file`: empty bytes are a 400, `.csv` (or csv-looking
`.log`/`.txt`) goes to the CSV parser, anything else to the text parser. -/
def rows_from_file (parseCsv : String → List Row) (looksLikeCsv : String → Bool)
    (iso : String → Option String) (name content : String) :
    Except HttpErr (List Row × String) :=
  if content = "" then .error ⟨400, "File is empty"⟩
  else
    let ext := fileExt name
    if ext = ".csv" then .ok (parseCsv content, "csv")
    else if (ext = ".log" ∨ ext = ".txt") ∧ looksLikeCsv content then
      .ok (parseCsv content, "csv")
    else .ok (parse_text iso (linesOf content), "text")

/-- The shared per-row event construction of `ingest`/`ingest_batch`: rows
without a timestamp are skipped, structured IPs are merged into the extracted
entities, and the confidence heuristic is 0.95 with any hint/IP/user/process
found, else 0.78. -/
def buildEvent (extractEntities : String → Entities)
    (inferHints : String → Option String → Option String × Option String)
    (ingest_id : String) (r : Row) : Option Event :=
  if r.ts.getD "" = "" then none
  else
    let msg := match r.msg with
      | some m => if m = "" then r.raw else m
      | none => r.raw
    let e0 := extractEntities msg
    let ips1 := match r.src_ip with
      | some v => if v ≠ "" ∧ ¬ e0.ips.contains v then e0.ips ++ [v] else e0.ips
      | none => e0.ips
    let ips2 := match r.dst_ip with
      | some v => if v ≠ "" ∧ ¬ ips1.contains v then ips1 ++ [v] else ips1
      | none => ips1
    let ents : Entities := { e0 with ips := ips2 }
    let h := inferHints msg r.log_type
    some { ingest_id := ingest_id, ts := r.ts.getD "", source_type := r.log_type,
           src_ip := r.src_ip, dst_ip := r.dst_ip, src_port := r.src_port,
           dst_port := r.dst_port, proto := r.proto, msg := msg,
           event_type_hint := h.1, severity_hint := h.2, entities := ents,
           raw := r.raw,
           parsing_confidence :=
             if h.1.isSome ∨ ¬ ents.ips.isEmpty ∨ ¬ ents.users.isEmpty ∨
                ¬ ents.processes.isEmpty then 95/100 else 78/100 }

structure Payload where
  ingest_id : String
  format : String
  count : ℕ
  sample : List Event
  events : Option (List Event)

/-- `POST /ingest`: extension gate, parse (exceptions surfaced as HTTP
errors), per-row event construction. -/
def ingest (parseCsv : String → List Row) (looksLikeCsv : String → Bool)
    (iso : String → Option String) (extractEntities : String → Entities)
    (inferHints : String → Option String → Option String × Option String)
    (ingest_id : String) (fname content : String) (full : Bool) :
    Except HttpErr Payload :=
  if fname = "" then .error ⟨400, "No file provided"⟩
  else if ¬ ALLOWED_EXTS.contains (fileExt fname) then
    .error ⟨415, "Unsupported file type"⟩
  else
    match rows_from_file parseCsv looksLikeCsv iso fname content with
    | .error e => .error e
    | .ok (rows, fmt) =>
      let events := rows.filterMap (buildEvent extractEntities inferHints ingest_id)
      .ok { ingest_id := ingest_id, format := fmt, count := events.length,
            sample := events.take 3,
            events := if full then some events else none }

def strLtChars : List Char → List Char → Bool
  | [], [] => false
  | [], _ :: _ => true
  | _ :: _, [] => false
  | a :: as, b :: bs => if a < b then true else if b < a then false else strLtChars as bs

def insertStr (x : String) : List String → List String
  | [] => [x]
  | y :: ys => if strLtChars x.data y.data then x :: y :: ys else y :: insertStr x ys

def sortStr : List String → List String
  | [] => []
  | x :: xs => insertStr x (sortStr xs)

def joinPlus : List String → String
  | [] => ""
  | [x] => x
  | x :: xs => x ++ "+" ++ joinPlus xs

/-- The per-file loop of `ingest_batch`.  Unlike `ingest`, the
`_rows_from_file` call is *not* wrapped in try/except here: any error it
raises (including the empty-file 400) propagates and aborts the whole call. -/
def batchGo (parseCsv : String → List Row) (looksLikeCsv : String → Bool)
    (iso : String → Option String) (extractEntities : String → Entities)
    (inferHints : String → Option String → Option String × Option String)
    (ingest_id : String) :
    List (String × String) → List Event → List String →
    Except HttpErr (List Event × List String)
  | [], evs, fmts => .ok (evs, fmts)
  | (name, content) :: rest, evs, fmts =>
    if name = "" then
      batchGo parseCsv looksLikeCsv iso extractEntities inferHints ingest_id rest evs fmts
    else if ¬ ALLOWED_EXTS.contains (fileExt name) then
      .error ⟨415, "Unsupported file type"⟩
    else
      match rows_from_file parseCsv looksLikeCsv iso name content with
      | .error e => .error e
      | .ok (rows, fmt) =>
        batchGo parseCsv looksLikeCsv iso extractEntities inferHints ingest_id rest
          (evs ++ rows.filterMap (buildEvent extractEntities inferHints ingest_id))
          (if fmts.contains fmt then fmts else fmts ++ [fmt])

/-- `POST /ingest/batch`. -/
def ingest_batch (parseCsv : String → List Row) (looksLikeCsv : String → Bool)
    (iso : String → Option String) (extractEntities : String → Entities)
    (inferHints : String → Option String → Option String × Option String)
    (ingest_id : String) (files : List (String × String)) (full : Bool) :
    Except HttpErr Payload :=
  if files.isEmpty then .error ⟨400, "No files provided"⟩
  else
    match batchGo parseCsv looksLikeCsv iso extractEntities inferHints ingest_id
        files [] [] with
    | .error e => .error e
    | .ok (events, fmts) =>
      .ok { ingest_id := ingest_id,
            format := if fmts.isEmpty then "unknown" else joinPlus (sortStr fmts),
            count := events.length, sample := events.take 3,
            events := if full then some events else none }

/-- Concrete boundary instantiations for the closed facts below. -/
def cIso6 : String → Option String := fun s =>
  if s = "2024-01-01 10:00:00" then some "2024-01-01T10:00:00+09:00" else none

def cExtract : String → Entities := fun _ => {}

def cHints : String → Option String → Option String × Option String :=
  fun _ _ => (none, none)

def cParseCsv : String → List Row := fun _ => []

def cLooks : String → Bool := fun _ => false

def goodFile : String × String := ("a.log", "2024-01-01 10:00:00 failed login for alice")

end Pre

namespace Pre

theorem rows_from_file_ok (parseCsv : String → List Row) (looksLikeCsv : String → Bool)
    (iso : String → Option String) (name content : String) (hc : content ≠ "") :
    ∃ r, rows_from_file parseCsv looksLikeCsv iso name content = .ok r := by
  unfold rows_from_file
  rw [if_neg hc]
  dsimp only
  split
  · exact ⟨_, rfl⟩
  · split
    · exact ⟨_, rfl⟩
    · exact ⟨_, rfl⟩

theorem batchGo_empty_fatal (parseCsv : String → List Row) (looksLikeCsv : String → Bool)
    (iso : String → Option String) (extractEntities : String → Entities)
    (inferHints : String → Option String → Option String × Option String)
    (ingest_id : String) :
    ∀ (files : List (String × String)) (evs : List Event) (fmts : List String),
      (∀ f ∈ files, f.1 ≠ "" ∧ ALLOWED_EXTS.contains (fileExt f.1)) →
      (∃ f ∈ files, f.2 = "") →
      batchGo parseCsv looksLikeCsv iso extractEntities inferHints ingest_id
        files evs fmts = .error ⟨400, "File is empty"⟩ := by
  intro files
  induction files with
  | nil => intro evs fmts _ hempty; simp at hempty
  | cons f rest ih =>
    intro evs fmts hok hempty
    obtain ⟨name, content⟩ := f
    have hf := hok (name, content) (List.mem_cons_self _ _)
    unfold batchGo
    rw [if_neg hf.1, if_neg (not_not_intro hf.2)]
    by_cases hc : content = ""
    · unfold rows_from_file
      rw [if_pos hc]
    · obtain ⟨r, hr⟩ := rows_from_file_ok parseCsv looksLikeCsv iso name content hc
      rw [hr]
      have hrest : ∃ g ∈ rest, g.2 = "" := by
        rcases hempty with ⟨g, hg, hge⟩
        rcases List.mem_cons.mp hg with h | h
        · exfalso; apply hc; rw [h] at hge; exact hge
        · exact ⟨g, h, hge⟩
      exact ih _ _ (fun g hg => hok g (List.mem_cons_of_mem _ hg)) hrest

/-- Bool views of the endpoint result, for kernel evaluation in closed facts. -/
def isEmptyErr : Except HttpErr Payload → Bool
  | .error e => e.status == 400 && e.detail == "File is empty"
  | .ok _ => false

def okCount : Except HttpErr Payload → Option ℕ
  | .ok p => some p.count
  | .error _ => none

end Pre

/-- C6 (amended): in `ingest_batch`, the per-file `_rows_from_file` call is
not guarded by any try/except (unlike single-file `ingest`), so a parser
error for one file — e.g. the empty-file 400 — aborts the *whole* batch call
even when every file has an allowed extension: no events from the other
files are returned.  Only per-row timestamp-less records are skipped. -/
theorem C6_batch_empty_file_fatal (parseCsv : String → List Pre.Row)
    (looksLikeCsv : String → Bool) (iso : String → Option String)
    (extractEntities : String → Pre.Entities)
    (inferHints : String → Option String → Option String × Option String)
    (ingest_id : String) (files : List (String × String)) (full : Bool)
    (hok : ∀ f ∈ files, f.1 ≠ "" ∧ Pre.ALLOWED_EXTS.contains (Pre.fileExt f.1))
    (hempty : ∃ f ∈ files, f.2 = "") :
    Pre.ingest_batch parseCsv looksLikeCsv iso extractEntities inferHints
      ingest_id files full = .error ⟨400, "File is empty"⟩ := by
  unfold Pre.ingest_batch
  have hne : ¬ files.isEmpty = true := by
    rcases hempty with ⟨f, hf, _⟩
    cases files with
    | nil => simp at hf
    | cons a l => simp
  rw [if_neg hne]
  rw [Pre.batchGo_empty_fatal parseCsv looksLikeCsv iso extractEntities inferHints
    ingest_id files [] [] hok hempty]

/-- Witness for C6 (amended): a batch of a good `.log` file and an empty
`.log` file is aborted whole with the empty-file 400. -/
theorem C6_batch_empty_file_fatal_witness :
    Pre.ingest_batch Pre.cParseCsv Pre.cLooks Pre.cIso6 Pre.cExtract Pre.cHints
      "ing" [Pre.goodFile, ("b.log", "")] false = .error ⟨400, "File is empty"⟩ :=
  C6_batch_empty_file_fatal Pre.cParseCsv Pre.cLooks Pre.cIso6 Pre.cExtract
    Pre.cHints "ing" [Pre.goodFile, ("b.log", "")] false
    (by decide) (by decide)

/-- C6 counterexample: the claim says a parser exception (e.g. an empty
file) in one file of a batch must not abort the whole `ingest_batch` call
and the other files' events are still ingested.  On the code, the batch of
the good file and an empty file returns the 400 error (no events at all),
although the good file alone yields one ingested event through both
`ingest` and `ingest_batch` — only its pairing with the failing file kills
it, refuting "only a disallowed extension is fatal to the whole call". -/
theorem C6_counterexample :
    Pre.isEmptyErr (Pre.ingest_batch Pre.cParseCsv Pre.cLooks Pre.cIso6 Pre.cExtract
      Pre.cHints "ing" [Pre.goodFile, ("b.log", "")] false) = true ∧
    Pre.okCount (Pre.ingest Pre.cParseCsv Pre.cLooks Pre.cIso6 Pre.cExtract Pre.cHints
      "ing" Pre.goodFile.1 Pre.goodFile.2 false) = some 1 ∧
    Pre.okCount (Pre.ingest_batch Pre.cParseCsv Pre.cLooks Pre.cIso6 Pre.cExtract
      Pre.cHints "ing" [Pre.goodFile] false) = some 1 := by
  refine ⟨by decide, by decide, by decide⟩

/-! ## Clustering subsystem, gated/uplift variant
(`src/backend/service/clustering/`: `models.py`, `config.py`,
`time_analyzer.py`, `ip_analyzer.py`, `user_analyzer.py`, `file_analyzer.py`,
`cluster_analyzer.py`)

Timestamps are UTC epoch seconds.  `math.log1p` is a function parameter
applied at the same natural-number arguments the code passes.  The
`internal_networks` CIDR list is the default of `config.py`
(`10.0.0.0/8`, `172.16.0.0/12`, `192.168.0.0/16`), parsed at `IPAnalyzer`
construction and tested octet-wise here. -/

namespace Clu

inductive EventType where
  | authentication | file_access | network_access | system_access
  | db_access | data_transfer | web_attack
deriving DecidableEq

inductive SeverityLevel where
  | info | low | medium | high | critical
deriving DecidableEq

structure Entities where
  ips : List String := []
  users : List String := []
  files : List String := []
  processes : List String := []
  domains : List String := []
  obj_name : Option String := none
  row_count : Option ℤ := none
  bytes_out : Option ℤ := none
  status : Option String := none
  asn : Option String := none
  geo : Option String := none
  blocked : Option Bool := none
deriving DecidableEq

structure SecurityEvent where
  event_id : String := ""
  timestamp : ℚ
  source_type : String := ""
  src_ip : String := "0.0.0.0"
  dst_ip : String := "0.0.0.0"
  message : String := ""
  event_type : EventType := .system_access
  severity : SeverityLevel := .info
  entities : Entities := {}
  parsing_confidence : ℚ := 1
deriving DecidableEq

/-- `AnalysisConfig` of `config.py` with its `__post_init__` defaults.  The
`metric_weights` dict is represented by one field per key, with
`wNetwork = 0` for the absent `network` key (`weights.get('network', 0.0)`).
The last six fields are read unconditionally by the File/User analyzers but
are never defined by any configuration constructor in the source (the access
raises AttributeError under `DEFAULT_CONFIG`; the spec flags this as an open
question), so they carry no default and must be supplied. -/
structure AnalysisConfig where
  time_window_threshold : ℚ := 300
  burst_threshold : ℚ := 2/60
  business_hours : ℤ × ℤ := (9, 19)
  maintenance_windows : List (ℤ × ℤ) := [(1, 3)]
  admin_users : List String := ["admin", "root", "administrator"]
  service_accounts : List String := ["backup", "batch", "svc_backup", "svc_batch"]
  sensitive_files : List (String × ℚ) :=
    [("/etc/", 9/10), ("/root/", 1), ("/var/log/", 8/10), ("/home/", 6/10),
     ("passwd", 1), ("shadow", 1), (".config", 7/10)]
  wTime : ℚ := 1/4
  wIp : ℚ := 1/5
  wUser : ℚ := 3/10
  wFile : ℚ := 1/4
  wNetwork : ℚ := 0
  min_axes_for_alert : ℕ := 2
  single_signal_penalty : ℚ := 1/5
  orthogonality_bonus : ℚ := 1/10
  parsing_confidence_floor : ℚ := 3/5
  ip_div_window_min : ℚ := 15
  db_row_threshold : ℤ
  db_sensitive_names : List String
  exfil_bytes_threshold : ℤ
  auth_burst_window_sec : ℚ
  auth_fail_burst_threshold : ℕ
  auth_spray_user_threshold : ℕ

def sortByTs (events : List SecurityEvent) : List SecurityEvent :=
  sortLe (fun e => e.timestamp) events

/-! ### Time Analyzer (service variant, no business/maintenance discounts) -/

/-- `TimeAnalyzer.calculate_time_concentration`: clipped scaled shortfall of
the mean inter-event gap against the 300 s window. -/
def calculate_time_concentration (cfg : AnalysisConfig) (events : List SecurityEvent) : ℚ :=
  if events.length < 2 then 0
  else
    let evs := sortByTs events
    let gaps := (evs.zip evs.tail).map (fun p => p.2.timestamp - p.1.timestamp)
    if gaps.isEmpty then 0
    else
      let avg := gaps.sum / gaps.length
      max 0 (min 1 ((cfg.time_window_threshold - avg) / cfg.time_window_threshold))

/-! ### IP Analyzer -/

/-- Octets of a dotted quad accepted by `ipaddress.IPv4Address`. -/
def ipOctets (s : String) : Option (ℕ × ℕ × ℕ × ℕ) :=
  match Validate.splitDot s.data with
  | [a, b, c, d] =>
    if Validate.validOctet a ∧ Validate.validOctet b ∧ Validate.validOctet c ∧
        Validate.validOctet d then
      some (Validate.digitsToNat a, Validate.digitsToNat b,
            Validate.digitsToNat c, Validate.digitsToNat d)
    else none
  | _ => none

/-- `IPAnalyzer._is_internal` against the default internal networks; an
unparseable address is external. -/
def isInternal (s : String) : Bool :=
  match ipOctets s with
  | none => false
  | some (a, b, _, _) =>
    a == 10 || (a == 172 && decide (16 ≤ b ∧ b ≤ 31)) || (a == 192 && b == 168)

/-- Ordered set insertion (Python `set.add` where only the cardinality and
membership of the set are consumed). -/
def addUnique (l : List String) (x : String) : List String :=
  if l.contains x then l else l ++ [x]

/-- Bucketing of events into `ip_div_window_min`-minute windows
(`int(ts // (window*60))`), dict-ordered. -/
def addToBucketZ (bs : List (ℤ × List SecurityEvent)) (k : ℤ) (e : SecurityEvent) :
    List (ℤ × List SecurityEvent) :=
  match bs with
  | [] => [(k, [e])]
  | (k2, es) :: rest =>
    if k2 = k then (k2, es ++ [e]) :: rest else (k2, es) :: addToBucketZ rest k e

def bucketOf (cfg : AnalysisConfig) (e : SecurityEvent) : ℤ :=
  ⌊e.timestamp / (cfg.ip_div_window_min * 60)⌋

/-- `IPAnalyzer.calculate_ip_diversification`:
`0.5·global + 0.4·window(75th pct) + 0.1·external_ratio`, clipped. -/
def calculate_ip_diversification (log1p : ℕ → ℚ) (cfg : AnalysisConfig)
    (events : List SecurityEvent) : ℚ :=
  if events.isEmpty then 0
  else
    let all_ips := events.foldl (fun l e => addUnique (addUnique l e.src_ip) e.dst_ip) []
    let ext_ips := all_ips.filter (fun ip => ¬ isInternal ip)
    let total_events := events.length
    let unique_all := all_ips.length
    let unique_ext := ext_ips.length
    let global_score := if total_events > 0 then
        log1p unique_all / log1p (total_events + 1) else 0
    let buckets := events.foldl (fun bs e => addToBucketZ bs (bucketOf cfg e) e) []
    let window_scores := buckets.filterMap (fun b =>
      let ext_set := b.2.foldl (fun l ev =>
        let l1 := if ¬ isInternal ev.src_ip then addUnique l ev.src_ip else l
        if ¬ isInternal ev.dst_ip then addUnique l1 ev.dst_ip else l1) []
      let cnt := b.2.length
      if cnt = 0 then none
      else some (log1p ext_set.length / log1p (cnt + 1)))
    let window_score :=
      if window_scores.isEmpty then 0
      else
        let ws := sortLe (fun q => q) window_scores
        let idx := max 0 (min (ws.length - 1) ((3 * (ws.length - 1)) / 4))
        ws.getD idx 0
    let external_ratio := (unique_ext : ℚ) / (max 1 unique_all : ℕ)
    clip01 ((1/2) * global_score + (2/5) * window_score + (1/10) * external_ratio)

/-- Result dict of `analyze_network_movement`. -/
structure NetMove where
  external_to_internal : ℕ
  internal_to_internal : ℕ
  lateral_movement_detected : Bool
  network_penetration_depth : ℕ
deriving DecidableEq

/-- Fold state of the movement scan. -/
structure MoveState where
  ext_to_int : ℕ := 0
  int_to_int : ℕ := 0
  chain : ℕ := 0
  last_dst : Option String := none
  ext_int_then_chain : Bool := false

def moveStep (st : MoveState) (e : SecurityEvent) : MoveState :=
  let src_int := isInternal e.src_ip
  let dst_int := isInternal e.dst_ip
  if ¬ src_int ∧ dst_int then
    { st with ext_to_int := st.ext_to_int + 1, chain := 0, last_dst := some e.dst_ip }
  else if src_int ∧ dst_int then
    let st1 := { st with int_to_int := st.int_to_int + 1 }
    let st2 :=
      match st1.last_dst with
      | some v =>
        if v ≠ "" ∧ e.src_ip = v then
          { st1 with chain := st1.chain + 1, last_dst := some e.dst_ip }
        else { st1 with chain := 1, last_dst := some e.dst_ip }
      | none => { st1 with chain := 1, last_dst := some e.dst_ip }
    if st2.chain ≥ 2 ∧ st2.ext_to_int > 0 then
      { st2 with ext_int_then_chain := true }
    else st2
  else st

/-- `IPAnalyzer.analyze_network_movement`. -/
def analyze_network_movement (events : List SecurityEvent) : NetMove :=
  if events.isEmpty then ⟨0, 0, false, 0⟩
  else
    let st := (sortByTs events).foldl moveStep {}
    ⟨st.ext_to_int, st.int_to_int,
     decide (st.chain ≥ 2) || st.ext_int_then_chain,
     st.ext_to_int + st.int_to_int⟩

end Clu

namespace Clu

def inMaint (cfg : AnalysisConfig) (h : ℤ) : Bool :=
  cfg.maintenance_windows.any (fun w => decide (w.1 ≤ h ∧ h < w.2))

def inBusiness (cfg : AnalysisConfig) (h : ℤ) : Bool :=
  decide (cfg.business_hours.1 ≤ h ∧ h < cfg.business_hours.2)

/-! ### shared sensitive-file machinery -/

/-- `_get_file_sensitivity`: first matching pattern of the table, else 0.3. -/
def getFileSensitivity (cfg : AnalysisConfig) (fp : String) : ℚ :=
  match cfg.sensitive_files.findSome? (fun pv =>
      if strContains (lowerStr fp) pv.1 then some pv.2 else none) with
  | some v => v
  | none => 3/10

/-- `_event_has_sensitive`: any file path of the event matches any pattern. -/
def eventHasSensitive (cfg : AnalysisConfig) (e : SecurityEvent) : Bool :=
  e.entities.files.any (fun fp =>
    cfg.sensitive_files.any (fun pv => strContains (lowerStr fp) pv.1))

/-- The scan of `_has_sensitive_sequence` (early return on `seq ≥ k`). -/
def sensSeqGo (cfg : AnalysisConfig) (k : ℕ) (window : ℚ) :
    List SecurityEvent → ℕ → Option ℚ → Bool
  | [], _, _ => false
  | e :: rest, seq, last =>
    if eventHasSensitive cfg e then
      let seq2 :=
        match last with
        | some lt => if e.timestamp - lt ≤ window then seq + 1 else 1
        | none => 1
      if seq2 ≥ k then true
      else sensSeqGo cfg k window rest seq2 (some e.timestamp)
    else sensSeqGo cfg k window rest 0 none

/-- `_has_sensitive_sequence` (k = 2, window = 180 s), shared verbatim by the
User and File analyzers of this package. -/
def hasSensitiveSeq (cfg : AnalysisConfig) (file_events : List SecurityEvent) : Bool :=
  if file_events.length < 2 then false
  else sensSeqGo cfg 2 180 (sortByTs file_events) 0 none

/-! ### User Analyzer -/

def firstUser (e : SecurityEvent) : String := e.entities.users.headD "unknown"

def statusOf (e : SecurityEvent) : String := lowerStr (e.entities.status.getD "")

/-- Fold state of the failure-burst scan of `_auth_abuse_signals`. -/
structure AuthState where
  failMap : List ((String × String) × List ℚ) := []
  sprayUsers : List String := []
  successAfterBurst : Bool := false

def failsOf (m : List ((String × String) × List ℚ)) (k : String × String) : List ℚ :=
  match m with
  | [] => []
  | (k2, ts) :: rest => if k2 = k then ts else failsOf rest k

def putFails (m : List ((String × String) × List ℚ)) (k : String × String)
    (ts : List ℚ) : List ((String × String) × List ℚ) :=
  match m with
  | [] => [(k, ts)]
  | (k2, old) :: rest =>
    if k2 = k then (k2, ts) :: rest else (k2, old) :: putFails rest k ts

def authStep (cfg : AnalysisConfig) (st : AuthState) (e : SecurityEvent) : AuthState :=
  let status := statusOf e
  let user := firstUser e
  let key := (e.src_ip, user)
  if status = "fail" then
    let t := e.timestamp
    let fails := failsOf st.failMap key ++ [t]
    let st1 := { st with failMap := putFails st.failMap key fails }
    let recent := fails.filter (fun x => t - x ≤ cfg.auth_burst_window_sec)
    if recent.length ≥ 1 then { st1 with sprayUsers := addUnique st1.sprayUsers user }
    else st1
  else if status = "success" then
    let t := e.timestamp
    let recent_fails := (failsOf st.failMap key).filter
      (fun x => t - x ≤ cfg.auth_burst_window_sec)
    if recent_fails.length ≥ cfg.auth_fail_burst_threshold then
      { st with successAfterBurst := true }
    else st
  else st

/-- The admin-success loop of `_auth_abuse_signals`: +0.2 for an admin
success outside business hours, +0.2 for an admin success from a first-seen
ASN/geo. -/
def adminSuccessBonus (cfg : AnalysisConfig) (auth_sorted : List SecurityEvent)
    (b0 : ℚ) : ℚ :=
  auth_sorted.foldl (fun b e =>
    if cfg.admin_users.contains (firstUser e) ∧ statusOf e = "success" then
      let b1 := if ¬ inBusiness cfg (hourOf e.timestamp) then b + 1/5 else b
      if e.entities.asn = some "first_seen" ∨ e.entities.geo = some "first_seen" then
        b1 + 1/5
      else b1
    else b) b0

/-- `UserAnalyzer._auth_abuse_signals`, capped at 0.6. -/
def authAbuseSignals (cfg : AnalysisConfig) (events : List SecurityEvent) : ℚ :=
  let auth := events.filter (fun e => e.event_type = EventType.authentication)
  if auth.isEmpty then 0
  else
    let auth_sorted := sortByTs auth
    let st := auth_sorted.foldl (authStep cfg) {}
    let b0 : ℚ := (if st.successAfterBurst then 7/20 else 0) +
      (if st.sprayUsers.length ≥ cfg.auth_spray_user_threshold then 1/4 else 0)
    min (3/5) (adminSuccessBonus cfg auth_sorted b0)

/-- Per-user activity buckets (`defaultdict(list)` keyed by every user of
every event). -/
def userActivities (events : List SecurityEvent) : List (String × List SecurityEvent) :=
  events.foldl (fun m e =>
    e.entities.users.foldl (fun m2 u =>
      match m2.lookup u with
      | some _ => m2.map (fun p => if p.1 = u then (p.1, p.2 ++ [e]) else p)
      | none => m2 ++ [(u, [e])]) m) []

/-- The per-user base score of `calculate_user_anomaly`. -/
def userBase (cfg : AnalysisConfig) (u : String) (evs : List SecurityEvent) : ℚ :=
  let s1 : ℚ := if cfg.service_accounts.contains u then -(1/10) else 0
  let s2 : ℚ := if cfg.admin_users.contains u ∧
      hasSensitiveSeq cfg (evs.filter (fun e => e.event_type = EventType.file_access))
    then s1 + 3/20 else s1
  max 0 s2

/-- `UserAnalyzer.calculate_user_anomaly`. -/
def calculate_user_anomaly (cfg : AnalysisConfig) (events : List SecurityEvent) : ℚ :=
  if events.isEmpty then 0
  else
    let acts := userActivities events
    let base := (acts.map (fun p => userBase cfg p.1 p.2)).sum
    let total_checks := acts.length
    let base2 := min 1 (base / (max 1 total_checks : ℕ))
    min 1 (base2 + authAbuseSignals cfg events)

structure UserAnalysis where
  escalation_detected : Bool
  escalation_indicators : List String
  risk_level : String
deriving DecidableEq

/-- `UserAnalyzer.detect_privilege_escalation`. -/
def detect_privilege_escalation (cfg : AnalysisConfig) (events : List SecurityEvent) :
    UserAnalysis :=
  let admin_present := events.any (fun e =>
    e.entities.users.any (fun u => cfg.admin_users.contains u))
  let file_events := events.filter (fun e => e.event_type = EventType.file_access)
  let ind1 : List String :=
    if admin_present ∧ hasSensitiveSeq cfg file_events then
      ["관리자 컨텍스트에서 민감 파일 연속 접근"] else []
  let inds :=
    if authAbuseSignals cfg events ≥ 7/20 then ind1 ++ ["실패폭주 후 단기 관리자 성공"]
    else ind1
  let risk := if inds.length ≥ 2 then "HIGH" else if inds.length ≥ 1 then "MEDIUM" else "LOW"
  ⟨¬ inds.isEmpty, inds, risk⟩

/-! ### File Analyzer -/

/-- `FileAnalyzer.calculate_file_sensitivity`. -/
def calculate_file_sensitivity (cfg : AnalysisConfig) (events : List SecurityEvent) : ℚ :=
  let file_events := events.filter (fun e => e.event_type = EventType.file_access)
  if file_events.isEmpty then 0
  else
    let fps := file_events.flatMap (fun e => e.entities.files)
    let cnt := fps.length
    let tot := (fps.map (getFileSensitivity cfg)).sum
    let base := if cnt = 0 then 0 else tot / cnt
    if hasSensitiveSeq cfg file_events then min 1 (base + 3/20) else base

structure FileAnalysis where
  exfiltration_risk_score : ℚ
  access_patterns : List String
  total_file_accesses : ℕ
  db_heavy_objects : List (String × ℤ × ℚ)
  total_bytes_out : ℤ
  high_risk_files : List (String × ℚ × String)
deriving DecidableEq

/-- The heavy sensitive DB reads of `analyze_data_exfiltration_risk`
(`row_count` at or above `db_row_threshold` with an `obj_name` matching a
sensitive tag). -/
def heavyDb (cfg : AnalysisConfig) (events : List SecurityEvent) :
    List (String × ℤ × ℚ) :=
  (events.filter (fun e => e.event_type = EventType.db_access)).filterMap (fun e =>
    let obj := lowerStr (e.entities.obj_name.getD "")
    let rows := e.entities.row_count.getD 0
    if rows ≥ cfg.db_row_threshold ∧
        cfg.db_sensitive_names.any (fun tag => strContains obj tag) then
      some (obj, rows, e.timestamp)
    else none)

/-- `sum(int(e.entities.get("bytes_out") or 0) for e in egress)`. -/
def totalBytesOut (events : List SecurityEvent) : ℤ :=
  ((events.filter (fun e => e.event_type = EventType.data_transfer)).map
    (fun e => e.entities.bytes_out.getD 0)).sum

/-- `FileAnalyzer.analyze_data_exfiltration_risk`. -/
def analyze_data_exfiltration_risk (cfg : AnalysisConfig) (events : List SecurityEvent) :
    FileAnalysis :=
  let file_events := events.filter (fun e => e.event_type = EventType.file_access)
  let heavy_db := heavyDb cfg events
  let risk0 : ℚ := if ¬ heavy_db.isEmpty then 2/5 else 0
  let pat0 : List String := if ¬ heavy_db.isEmpty then ["DB 대량 민감 오브젝트 접근"] else []
  let total_bytes_out := totalBytesOut events
  let risk1 := if total_bytes_out ≥ cfg.exfil_bytes_threshold then risk0 + 7/20 else risk0
  let pat1 := if total_bytes_out ≥ cfg.exfil_bytes_threshold then pat0 ++ ["외부로 대량 전송"] else pat0
  let risk2 := if hasSensitiveSeq cfg file_events then risk1 + 3/20 else risk1
  let pat2 := if hasSensitiveSeq cfg file_events then pat1 ++ ["민감 파일 연속 접근"] else pat1
  let risk3 := if events.any (fun e => inMaint cfg (hourOf e.timestamp)) then
      max 0 (risk2 - 3/20) else risk2
  let risk4 := if events.any (fun e =>
      cfg.service_accounts.contains (e.entities.users.headD "")) then
      max 0 (risk3 - 1/10) else risk3
  let high_risk_files := file_events.flatMap (fun e =>
    e.entities.files.filterMap (fun fp =>
      let sens := getFileSensitivity cfg fp
      if sens ≥ 7/10 then some (fp, sens, e.entities.users.headD "?") else none))
  ⟨min 1 risk4, pat2, file_events.length, heavy_db, total_bytes_out, high_risk_files⟩

end Clu

namespace Clu

structure ClusterMetrics where
  time_concentration : ℚ
  ip_diversification : ℚ
  user_anomaly : ℚ
  file_sensitivity : ℚ
  network_threat : ℚ
  overall_risk_score : ℚ
  attack_scenario : String
  priority_level : SeverityLevel

/-- Stable de-duplication (`dict.fromkeys`). -/
def dedup : List String → List String
  | [] => []
  | x :: xs => x :: (dedup xs).filter (fun y => y ≠ x)

def joinPlusSp : List String → String
  | [] => ""
  | [x] => x
  | x :: xs => x ++ " + " ++ joinPlusSp xs

/-- `_generate_attack_scenario` over the factor dict (no `network_threat`
key when the axis is absent, so `m.get('network_threat', 0.0)` is 0). -/
def generateAttackScenario (t i u f : ℚ) (reasons : List String) : String :=
  let s0 : List String := if u > 7/10 then ["자격 남용/권한 악용 의심"] else []
  let s1 := if t > 3/5 then s0 ++ ["단시간 집중 활동"] else s0
  let s2 := if f > 3/5 then s1 ++ ["민감/DB 대량 접근"] else s1
  let s3 := if i > 3/5 then s2 ++ ["내부 연쇄/다중 IP 활용"] else s2
  let s := s3 ++ reasons
  if s.isEmpty then "일반적 이벤트" else joinPlusSp (dedup s)

def determinePriority (risk : ℚ) : SeverityLevel :=
  if risk ≥ 4/5 then .critical
  else if risk ≥ 3/5 then .high
  else if risk ≥ 2/5 then .medium
  else .low

/-- The weighted sum + multi-axis gating + orthogonality bonus + parsing
confidence discount of `analyze_cluster` steps 2-4 (`net_threat` is `None`
here, see `analyze_cluster`). -/
def gatedRisk (cfg : AnalysisConfig) (t i u f avg_conf : ℚ) : ℚ :=
  let risk1 := t * cfg.wTime + i * cfg.wIp + u * cfg.wUser + f * cfg.wFile
  let axes := ([t, i, u, f].countP (fun v => decide (v > 3/5)))
  let risk2 := if axes < cfg.min_axes_for_alert then
      max 0 (risk1 - cfg.single_signal_penalty) else risk1
  let risk3 := if axes ≥ 3 then min 1 (risk2 + cfg.orthogonality_bonus) else risk2
  if avg_conf < cfg.parsing_confidence_floor then risk3 * (17/20) else risk3

/-- The three uplift-rule conditions of steps 6-1..6-3.  `blocked_egress` is
0 and rule 6-4 (`if net_details:`) is dead because `calculate_network_threat`
does not exist on this package's `IPAnalyzer` (the try/except leaves
`net_details = {}`). -/
def upliftFlags (cfg : AnalysisConfig) (events : List SecurityEvent) :
    Bool × Bool × Bool :=
  let ip_analysis := analyze_network_movement events
  let user_analysis := detect_privilege_escalation cfg events
  let file_analysis := analyze_data_exfiltration_risk cfg events
  let db_heavy := file_analysis.db_heavy_objects
  let bytes_out := file_analysis.total_bytes_out
  let blocked_egress : ℤ := 0
  let exfilSig := bytes_out ≥ cfg.exfil_bytes_threshold ∨ blocked_egress ≥ 1
  (decide ((¬ db_heavy.isEmpty ∧ exfilSig) ∨
     file_analysis.exfiltration_risk_score ≥ 7/10),
   decide (ip_analysis.lateral_movement_detected ∧ exfilSig),
   decide (user_analysis.escalation_detected ∧ ¬ db_heavy.isEmpty))

def upliftStep (b : Bool) (r : ℚ) : ℚ := if b then max r (3/5) else r

/-- Average parsing confidence (`statistics.mean`; the events list is
non-empty wherever this is used). -/
def avgConf (events : List SecurityEvent) : ℚ :=
  (events.map (fun e => e.parsing_confidence)).sum / events.length

/-- The overall risk of `analyze_cluster` for a non-empty event set. -/
def clusterRisk (log1p : ℕ → ℚ) (cfg : AnalysisConfig)
    (events : List SecurityEvent) : ℚ :=
  let t := calculate_time_concentration cfg events
  let i := calculate_ip_diversification log1p cfg events
  let u := calculate_user_anomaly cfg events
  let f := calculate_file_sensitivity cfg events
  let flags := upliftFlags cfg events
  upliftStep flags.2.2 (upliftStep flags.2.1 (upliftStep flags.1
    (gatedRisk cfg t i u f (avgConf events))))

/-- The uplift-reason strings accumulated alongside the uplift rules. -/
def upliftReasons (cfg : AnalysisConfig) (events : List SecurityEvent) : List String :=
  let flags := upliftFlags cfg events
  (if flags.1 then ["DB 대량 민감 접근 + 유출(또는 차단된 유출)"] else []) ++
  (if flags.2.1 then ["내부 측면 이동 + 유출 신호"] else []) ++
  (if flags.2.2 then ["관리자 탈취 의심 + DB 민감 접근"] else [])

/-- `ClusterAnalyzer.analyze_cluster` (gated/uplift variant).  The
`calculate_network_threat` call is wrapped in try/except in the source, and
the `IPAnalyzer` of this package does not define that method: the
AttributeError is swallowed, `net_threat` stays `None` (its axis weight term,
its `axes_vals` entry and the beacon uplift are all skipped, and the returned
`network_threat` field is 0.0). -/
def analyze_cluster (log1p : ℕ → ℚ) (cfg : AnalysisConfig)
    (events : List SecurityEvent) : ClusterMetrics :=
  if events.isEmpty then ⟨0, 0, 0, 0, 0, 0, "이벤트 없음", .low⟩
  else
    let t := calculate_time_concentration cfg events
    let i := calculate_ip_diversification log1p cfg events
    let u := calculate_user_anomaly cfg events
    let f := calculate_file_sensitivity cfg events
    let risk := clusterRisk log1p cfg events
    ⟨t, i, u, f, 0, risk,
     generateAttackScenario t i u f (upliftReasons cfg events),
     determinePriority risk⟩

end Clu

namespace Clu

theorem timeConc_bounds (cfg : AnalysisConfig) (events : List SecurityEvent) :
    0 ≤ calculate_time_concentration cfg events ∧
    calculate_time_concentration cfg events ≤ 1 := by
  unfold calculate_time_concentration
  split
  · norm_num
  · dsimp only
    split
    · norm_num
    · exact ⟨le_max_left 0 _, max_le (by norm_num) (min_le_left 1 _)⟩

theorem ipDiv_bounds (log1p : ℕ → ℚ) (cfg : AnalysisConfig)
    (events : List SecurityEvent) :
    0 ≤ calculate_ip_diversification log1p cfg events ∧
    calculate_ip_diversification log1p cfg events ≤ 1 := by
  unfold calculate_ip_diversification
  split
  · norm_num
  · exact ⟨clip01_nonneg _, clip01_le_one _⟩

/-- A hypothesis satisfied by the default `sensitive_files` table. -/
def sensTableOk (cfg : AnalysisConfig) : Prop :=
  ∀ pv ∈ cfg.sensitive_files, 0 ≤ pv.2 ∧ pv.2 ≤ 1

theorem getFileSensitivity_bounds {cfg : AnalysisConfig} (hsf : sensTableOk cfg)
    (fp : String) :
    0 ≤ getFileSensitivity cfg fp ∧ getFileSensitivity cfg fp ≤ 1 := by
  unfold getFileSensitivity
  cases hfind : cfg.sensitive_files.findSome? (fun pv =>
      if strContains (lowerStr fp) pv.1 = true then some pv.2 else none) with
  | none => norm_num
  | some v =>
    obtain ⟨pv, hmem, hpv⟩ := List.exists_of_findSome?_eq_some hfind
    have hv : v = pv.2 := by
      by_cases hc : strContains (lowerStr fp) pv.1 = true
      · rw [if_pos hc] at hpv; exact (Option.some.injEq _ _ ▸ hpv).symm
      · rw [if_neg hc] at hpv; cases hpv
    subst hv
    exact hsf pv hmem

theorem fileSens_bounds {cfg : AnalysisConfig} (hsf : sensTableOk cfg)
    (events : List SecurityEvent) :
    0 ≤ calculate_file_sensitivity cfg events ∧
    calculate_file_sensitivity cfg events ≤ 1 := by
  unfold calculate_file_sensitivity
  dsimp only
  split
  · norm_num
  · set fps := ((events.filter (fun e => e.event_type = EventType.file_access)).flatMap
      (fun e => e.entities.files)) with hfps
    have hsum0 : 0 ≤ (fps.map (getFileSensitivity cfg)).sum :=
      List.sum_nonneg (by
        intro x hx
        obtain ⟨fp, _, hfp⟩ := List.mem_map.mp hx
        exact hfp ▸ (getFileSensitivity_bounds hsf fp).1)
    have hsum1 : (fps.map (getFileSensitivity cfg)).sum ≤ fps.length := by
      have := List.sum_le_card_nsmul (fps.map (getFileSensitivity cfg)) 1 (by
        intro x hx
        obtain ⟨fp, _, hfp⟩ := List.mem_map.mp hx
        exact hfp ▸ (getFileSensitivity_bounds hsf fp).2)
      simpa using this
    have hbase : 0 ≤ (if fps.length = 0 then 0 else
        (fps.map (getFileSensitivity cfg)).sum / fps.length) ∧
        (if fps.length = 0 then 0 else
        (fps.map (getFileSensitivity cfg)).sum / fps.length) ≤ 1 := by
      split
      · norm_num
      · constructor
        · positivity
        · rw [div_le_one (by positivity)]
          exact hsum1
    constructor
    · split
      · exact le_min (by norm_num) (by linarith [hbase.1])
      · exact hbase.1
    · split
      · exact min_le_left 1 _
      · exact hbase.2

theorem adminSuccessBonus_ge (cfg : AnalysisConfig) (l : List SecurityEvent) :
    ∀ b0 : ℚ, b0 ≤ adminSuccessBonus cfg l b0 := by
  unfold adminSuccessBonus
  induction l with
  | nil => intro b0; simp
  | cons e rest ih =>
    intro b0
    rw [List.foldl_cons]
    refine le_trans ?_ (ih _)
    split
    · split
      · split <;> linarith
      · split <;> linarith
    · exact le_refl b0

theorem authAbuse_bounds (cfg : AnalysisConfig) (events : List SecurityEvent) :
    0 ≤ authAbuseSignals cfg events ∧ authAbuseSignals cfg events ≤ 3/5 := by
  unfold authAbuseSignals
  dsimp only
  split
  · norm_num
  · refine ⟨le_min (by norm_num) ?_, min_le_left _ _⟩
    refine le_trans ?_ (adminSuccessBonus_ge cfg _ _)
    split <;> split <;> norm_num

theorem userAnom_bounds (cfg : AnalysisConfig) (events : List SecurityEvent) :
    0 ≤ calculate_user_anomaly cfg events ∧
    calculate_user_anomaly cfg events ≤ 1 := by
  unfold calculate_user_anomaly
  split
  · norm_num
  · dsimp only
    have hb : 0 ≤ ((userActivities events).map
        (fun p => userBase cfg p.1 p.2)).sum :=
      List.sum_nonneg (by
        intro x hx
        obtain ⟨p, _, hp⟩ := List.mem_map.mp hx
        exact hp ▸ le_max_left 0 _)
    have hb2 : (0:ℚ) ≤ ((userActivities events).map (fun p => userBase cfg p.1 p.2)).sum /
        ((max 1 (userActivities events).length : ℕ) : ℚ) := by
      apply div_nonneg hb
      have : (1:ℕ) ≤ max 1 (userActivities events).length := le_max_left _ _
      exact_mod_cast Nat.zero_le _
    refine ⟨le_min (by norm_num) ?_, min_le_left 1 _⟩
    have := (authAbuse_bounds cfg events).1
    have hmin : (0:ℚ) ≤ min 1 (((userActivities events).map
        (fun p => userBase cfg p.1 p.2)).sum /
        ((max 1 (userActivities events).length : ℕ) : ℚ)) := le_min (by norm_num) hb2
    linarith

end Clu

namespace Clu

/-- The default configuration extended with explicit values for the six
fields the source never defines (see `AnalysisConfig`). -/
def mkDefaultCfg (rTh : ℤ) (names : List String) (bTh : ℤ) (wsec : ℚ)
    (fb sp : ℕ) : AnalysisConfig :=
  { db_row_threshold := rTh, db_sensitive_names := names,
    exfil_bytes_threshold := bTh, auth_burst_window_sec := wsec,
    auth_fail_burst_threshold := fb, auth_spray_user_threshold := sp }

theorem gatedRisk_default_bounds (rTh : ℤ) (names : List String) (bTh : ℤ)
    (wsec : ℚ) (fb sp : ℕ) {t i u f : ℚ} (c : ℚ)
    (ht : 0 ≤ t ∧ t ≤ 1) (hi : 0 ≤ i ∧ i ≤ 1)
    (hu : 0 ≤ u ∧ u ≤ 1) (hf : 0 ≤ f ∧ f ≤ 1) :
    0 ≤ gatedRisk (mkDefaultCfg rTh names bTh wsec fb sp) t i u f c ∧
    gatedRisk (mkDefaultCfg rTh names bTh wsec fb sp) t i u f c ≤ 1 := by
  unfold gatedRisk mkDefaultCfg
  dsimp only
  set r1 := t * (1/4) + i * (1/5) + u * (3/10) + f * (1/4) with hr1
  have h1 : 0 ≤ r1 ∧ r1 ≤ 1 := by
    constructor
    · rw [hr1]; nlinarith [ht.1, hi.1, hu.1, hf.1]
    · rw [hr1]; nlinarith [ht.1, ht.2, hi.1, hi.2, hu.1, hu.2, hf.1, hf.2]
  set a := [t, i, u, f].countP (fun v => decide (v > 3/5)) with ha
  have h2 : 0 ≤ (if a < 2 then max 0 (r1 - 1/5) else r1) ∧
      (if a < 2 then max 0 (r1 - 1/5) else r1) ≤ 1 := by
    split
    · exact ⟨le_max_left 0 _, max_le (by norm_num) (by linarith [h1.2])⟩
    · exact h1
  set r2 := if a < 2 then max 0 (r1 - 1/5) else r1
  have h3 : 0 ≤ (if a ≥ 3 then min 1 (r2 + 1/10) else r2) ∧
      (if a ≥ 3 then min 1 (r2 + 1/10) else r2) ≤ 1 := by
    split
    · exact ⟨le_min (by norm_num) (by linarith [h2.1]), min_le_left 1 _⟩
    · exact h2
  set r3 := if a ≥ 3 then min 1 (r2 + 1/10) else r2
  split
  · constructor
    · nlinarith [h3.1]
    · nlinarith [h3.1, h3.2]
  · exact h3

theorem upliftStep_bounds (b : Bool) {r : ℚ} (h0 : 0 ≤ r) (h1 : r ≤ 1) :
    0 ≤ upliftStep b r ∧ upliftStep b r ≤ 1 := by
  unfold upliftStep
  split
  · exact ⟨le_max_of_le_left h0, max_le h1 (by norm_num)⟩
  · exact ⟨h0, h1⟩

theorem clusterRisk_default_bounds (log1p : ℕ → ℚ) (rTh : ℤ) (names : List String)
    (bTh : ℤ) (wsec : ℚ) (fb sp : ℕ) (events : List SecurityEvent) :
    0 ≤ clusterRisk log1p (mkDefaultCfg rTh names bTh wsec fb sp) events ∧
    clusterRisk log1p (mkDefaultCfg rTh names bTh wsec fb sp) events ≤ 1 := by
  have hsf : sensTableOk (mkDefaultCfg rTh names bTh wsec fb sp) := by
    intro pv hmem
    unfold mkDefaultCfg at hmem
    simp only [List.mem_cons] at hmem
    rcases hmem with h | h | h | h | h | h | h | h <;>
      first
        | (subst h; norm_num)
        | simp at h
  unfold clusterRisk
  dsimp only
  have hg := gatedRisk_default_bounds rTh names bTh wsec fb sp (avgConf events)
    (timeConc_bounds (mkDefaultCfg rTh names bTh wsec fb sp) events)
    (ipDiv_bounds log1p (mkDefaultCfg rTh names bTh wsec fb sp) events)
    (userAnom_bounds (mkDefaultCfg rTh names bTh wsec fb sp) events)
    (fileSens_bounds hsf events)
  have h5 := upliftStep_bounds (upliftFlags (mkDefaultCfg rTh names bTh wsec fb sp) events).1
    hg.1 hg.2
  have h6 := upliftStep_bounds (upliftFlags (mkDefaultCfg rTh names bTh wsec fb sp) events).2.1
    h5.1 h5.2
  exact upliftStep_bounds (upliftFlags (mkDefaultCfg rTh names bTh wsec fb sp) events).2.2
    h6.1 h6.2

end Clu

/-- C7: for every input event list (empty or not), `analyze_cluster` under
the default configuration (its six source-undefined threshold fields
supplied with arbitrary values; they only enter comparisons) returns an
`overall_risk_score` in [0,1] and every axis score in [0,1]: the gating
penalty is floored at 0, the orthogonality bonus is capped at 1, the 0.85
confidence discount keeps the range, and each uplift `max(risk, 0.6)` never
pushes the score above 1. -/
theorem C7_analyze_cluster_bounds (log1p : ℕ → ℚ) (rTh : ℤ) (names : List String)
    (bTh : ℤ) (wsec : ℚ) (fb sp : ℕ) (events : List Clu.SecurityEvent) :
    0 ≤ (Clu.analyze_cluster log1p (Clu.mkDefaultCfg rTh names bTh wsec fb sp)
        events).overall_risk_score ∧
    (Clu.analyze_cluster log1p (Clu.mkDefaultCfg rTh names bTh wsec fb sp)
        events).overall_risk_score ≤ 1 ∧
    0 ≤ (Clu.analyze_cluster log1p (Clu.mkDefaultCfg rTh names bTh wsec fb sp)
        events).time_concentration ∧
    (Clu.analyze_cluster log1p (Clu.mkDefaultCfg rTh names bTh wsec fb sp)
        events).time_concentration ≤ 1 ∧
    0 ≤ (Clu.analyze_cluster log1p (Clu.mkDefaultCfg rTh names bTh wsec fb sp)
        events).ip_diversification ∧
    (Clu.analyze_cluster log1p (Clu.mkDefaultCfg rTh names bTh wsec fb sp)
        events).ip_diversification ≤ 1 ∧
    0 ≤ (Clu.analyze_cluster log1p (Clu.mkDefaultCfg rTh names bTh wsec fb sp)
        events).user_anomaly ∧
    (Clu.analyze_cluster log1p (Clu.mkDefaultCfg rTh names bTh wsec fb sp)
        events).user_anomaly ≤ 1 ∧
    0 ≤ (Clu.analyze_cluster log1p (Clu.mkDefaultCfg rTh names bTh wsec fb sp)
        events).file_sensitivity ∧
    (Clu.analyze_cluster log1p (Clu.mkDefaultCfg rTh names bTh wsec fb sp)
        events).file_sensitivity ≤ 1 ∧
    0 ≤ (Clu.analyze_cluster log1p (Clu.mkDefaultCfg rTh names bTh wsec fb sp)
        events).network_threat ∧
    (Clu.analyze_cluster log1p (Clu.mkDefaultCfg rTh names bTh wsec fb sp)
        events).network_threat ≤ 1 := by
  have hsf : Clu.sensTableOk (Clu.mkDefaultCfg rTh names bTh wsec fb sp) := by
    intro pv hmem
    unfold Clu.mkDefaultCfg at hmem
    simp only [List.mem_cons] at hmem
    rcases hmem with h | h | h | h | h | h | h | h <;>
      first
        | (subst h; norm_num)
        | simp at h
  unfold Clu.analyze_cluster
  split
  · norm_num
  · dsimp only
    have h1 := Clu.clusterRisk_default_bounds log1p rTh names bTh wsec fb sp events
    have h2 := Clu.timeConc_bounds (Clu.mkDefaultCfg rTh names bTh wsec fb sp) events
    have h3 := Clu.ipDiv_bounds log1p (Clu.mkDefaultCfg rTh names bTh wsec fb sp) events
    have h4 := Clu.userAnom_bounds (Clu.mkDefaultCfg rTh names bTh wsec fb sp) events
    have h5 := Clu.fileSens_bounds hsf events
    exact ⟨h1.1, h1.2, h2.1, h2.2, h3.1, h3.2, h4.1, h4.2, h5.1, h5.2,
      by norm_num, by norm_num⟩

namespace Clu

theorem upliftStep_ge (b : Bool) (r : ℚ) : r ≤ upliftStep b r := by
  unfold upliftStep
  split
  · exact le_max_left r _
  · exact le_refl r

theorem upliftStep_true (r : ℚ) : (3:ℚ)/5 ≤ upliftStep true r := by
  unfold upliftStep
  simp only [if_true]
  exact le_max_right r _

/-- The C2 events: one heavy sensitive `db_access` read and one blocked
`data_transfer` without a byte count, from the same internal address. -/
def c2cfg : AnalysisConfig := mkDefaultCfg 10000 ["credit"] (50 * 1024 * 1024) 600 5 3

def c2db : SecurityEvent :=
  { timestamp := 0, src_ip := "10.0.0.5", dst_ip := "10.0.0.5",
    event_type := .db_access,
    entities := { obj_name := some "customers_credit_card", row_count := some 15000 } }

def c2tr : SecurityEvent :=
  { timestamp := 400, src_ip := "10.0.0.5", dst_ip := "10.0.0.5",
    event_type := .data_transfer, entities := { blocked := some true } }

end Clu

/-- C2 (amended): the DB-heavy uplift of `analyze_cluster` forces
`overall_risk_score ≥ 0.6` only when the heavy sensitive DB access co-occurs
with `total_bytes_out ≥ exfil_bytes_threshold` (or when the exfiltration
score itself reaches 0.7); the blocked-egress arm of the rule reads
`net_details["blocked_egress"]`, which is always absent because this
package's `IPAnalyzer` has no `calculate_network_threat`, so a blocked
`data_transfer` event contributes nothing. -/
theorem C2_db_heavy_uplift (log1p : ℕ → ℚ) (cfg : Clu.AnalysisConfig)
    (events : List Clu.SecurityEvent)
    (hdb : ¬ (Clu.analyze_data_exfiltration_risk cfg events).db_heavy_objects.isEmpty)
    (hbytes : (Clu.analyze_data_exfiltration_risk cfg events).total_bytes_out ≥
      cfg.exfil_bytes_threshold) :
    (3:ℚ)/5 ≤ (Clu.analyze_cluster log1p cfg events).overall_risk_score := by
  have hne : ¬ events.isEmpty = true := by
    intro h
    cases events with
    | nil =>
      simp [Clu.analyze_data_exfiltration_risk, Clu.heavyDb] at hdb
    | cons a l => simp at h
  unfold Clu.analyze_cluster
  rw [if_neg hne]
  dsimp only
  unfold Clu.clusterRisk
  dsimp only
  have hup1 : (Clu.upliftFlags cfg events).1 = true := by
    unfold Clu.upliftFlags
    dsimp only
    exact decide_eq_true (Or.inl ⟨hdb, Or.inl hbytes⟩)
  calc (3:ℚ)/5 ≤ Clu.upliftStep (Clu.upliftFlags cfg events).1
        (Clu.gatedRisk cfg (Clu.calculate_time_concentration cfg events)
          (Clu.calculate_ip_diversification log1p cfg events)
          (Clu.calculate_user_anomaly cfg events)
          (Clu.calculate_file_sensitivity cfg events) (Clu.avgConf events)) := by
        rw [hup1]; exact Clu.upliftStep_true _
    _ ≤ _ := le_trans (Clu.upliftStep_ge _ _) (Clu.upliftStep_ge _ _)

/-- Witness for C2 (amended): the heavy DB read together with a 60 MiB
transfer is uplifted to at least 0.6. -/
theorem C2_db_heavy_uplift_witness :
    (3:ℚ)/5 ≤ (Clu.analyze_cluster (fun _ => 0) Clu.c2cfg
      [Clu.c2db, { Clu.c2tr with entities := { Clu.c2tr.entities with
        bytes_out := some (60 * 1024 * 1024) } }]).overall_risk_score := by
  apply C2_db_heavy_uplift
  · decide
  · decide

set_option maxHeartbeats 2000000 in
/-- C2 counterexample: the claim says a heavy sensitive `db_access` event
plus a blocked `data_transfer` event force `overall_risk_score ≥ 0.6`.  On
the concrete pair `c2db`/`c2tr` all claim premises hold (rows 15000 ≥
threshold 10000, object name matching "credit", `entities.blocked = true`),
yet `analyze_cluster` returns overall risk 0 < 0.6: the blocked flag never
reaches the uplift (no network-threat axis in this package), the byte total
is 0, and the exfiltration score 0.4 stays below the 0.7 fallback. -/
theorem C2_counterexample :
    (Clu.c2db.event_type = Clu.EventType.db_access ∧
     Clu.c2db.entities.row_count.getD 0 ≥ Clu.c2cfg.db_row_threshold ∧
     Clu.c2cfg.db_sensitive_names.any
       (fun tag => strContains (lowerStr (Clu.c2db.entities.obj_name.getD "")) tag) = true ∧
     Clu.c2tr.event_type = Clu.EventType.data_transfer ∧
     Clu.c2tr.entities.blocked = some true) ∧
    (Clu.analyze_cluster (fun _ => 0) Clu.c2cfg
      [Clu.c2db, Clu.c2tr]).overall_risk_score < 3/5 := by
  refine ⟨by decide, ?_⟩
  have ht : Clu.calculate_time_concentration Clu.c2cfg [Clu.c2db, Clu.c2tr] = 0 := by
    norm_num [Clu.calculate_time_concentration, Clu.sortByTs, sortLe, insertLe,
      Clu.c2db, Clu.c2tr, Clu.c2cfg, Clu.mkDefaultCfg, min_def, max_def]
  have hint : Clu.isInternal "10.0.0.5" = true := by decide
  have hi : Clu.calculate_ip_diversification (fun _ => 0) Clu.c2cfg
      [Clu.c2db, Clu.c2tr] = 0 := by
    norm_num [Clu.calculate_ip_diversification, Clu.addUnique, Clu.addToBucketZ,
      Clu.bucketOf, Clu.c2db, Clu.c2tr, Clu.c2cfg, Clu.mkDefaultCfg, hint,
      clip01, min_def, max_def, sortLe, insertLe, List.filter_cons, List.filter_nil, List.filterMap_cons, List.filterMap_nil, List.foldl_cons, List.foldl_nil, List.map_cons, List.map_nil, List.sum_cons, List.sum_nil, List.any_cons, List.any_nil, List.isEmpty_cons, List.isEmpty_nil, List.length_cons, List.length_nil, decide_eq_true_eq]
  have d1 : Clu.EventType.db_access ≠ Clu.EventType.authentication := by decide
  have d2 : Clu.EventType.data_transfer ≠ Clu.EventType.authentication := by decide
  have d3 : Clu.EventType.db_access ≠ Clu.EventType.file_access := by decide
  have d4 : Clu.EventType.data_transfer ≠ Clu.EventType.file_access := by decide
  have d5 : Clu.EventType.db_access ≠ Clu.EventType.data_transfer := by decide
  have d6 : Clu.EventType.data_transfer ≠ Clu.EventType.db_access := by decide
  have hu : Clu.calculate_user_anomaly Clu.c2cfg [Clu.c2db, Clu.c2tr] = 0 := by
    norm_num [d1, d2, d3, d4, d5, d6, Clu.calculate_user_anomaly, Clu.userActivities, Clu.authAbuseSignals,
      Clu.c2db, Clu.c2tr, min_def, max_def, List.filter_cons, List.filter_nil, List.filterMap_cons, List.filterMap_nil, List.foldl_cons, List.foldl_nil, List.map_cons, List.map_nil, List.sum_cons, List.sum_nil, List.any_cons, List.any_nil, List.isEmpty_cons, List.isEmpty_nil, List.length_cons, List.length_nil, decide_eq_true_eq]
  have hf : Clu.calculate_file_sensitivity Clu.c2cfg [Clu.c2db, Clu.c2tr] = 0 := by
    norm_num [d1, d2, d3, d4, d5, d6, Clu.calculate_file_sensitivity, Clu.c2db, Clu.c2tr, List.filter_cons, List.filter_nil, List.filterMap_cons, List.filterMap_nil, List.foldl_cons, List.foldl_nil, List.map_cons, List.map_nil, List.sum_cons, List.sum_nil, List.any_cons, List.any_nil, List.isEmpty_cons, List.isEmpty_nil, List.length_cons, List.length_nil, decide_eq_true_eq]
  have hg : Clu.gatedRisk Clu.c2cfg 0 0 0 0 (Clu.avgConf [Clu.c2db, Clu.c2tr]) = 0 := by
    norm_num [Clu.gatedRisk, Clu.avgConf, Clu.c2db, Clu.c2tr, Clu.c2cfg,
      Clu.mkDefaultCfg, min_def, max_def]
  have hhv : Clu.heavyDb Clu.c2cfg [Clu.c2db, Clu.c2tr] =
      [("customers_credit_card", 15000, 0)] := by decide
  have hb0 : Clu.totalBytesOut [Clu.c2db, Clu.c2tr] = 0 := by decide
  have hseq : Clu.hasSensitiveSeq Clu.c2cfg (List.filter
      (fun e => decide (e.event_type = Clu.EventType.file_access))
      [Clu.c2db, Clu.c2tr]) = false := by decide
  have hmnt : ([Clu.c2db, Clu.c2tr].any
      (fun e => Clu.inMaint Clu.c2cfg (hourOf e.timestamp))) = false := by
    norm_num [List.any_cons, List.any_nil, Clu.inMaint, hourOf, Clu.c2cfg,
      Clu.mkDefaultCfg, Clu.c2db, Clu.c2tr]
  have hsvc : ([Clu.c2db, Clu.c2tr].any (fun e =>
      Clu.c2cfg.service_accounts.contains (e.entities.users.headD ""))) = false := by
    decide
  have hfa : (Clu.analyze_data_exfiltration_risk Clu.c2cfg
      [Clu.c2db, Clu.c2tr]).exfiltration_risk_score = 2/5 := by
    unfold Clu.analyze_data_exfiltration_risk
    dsimp only
    rw [hhv, hb0, hseq, hmnt, hsvc]
    norm_num [Clu.c2cfg, Clu.mkDefaultCfg, min_def, max_def]
  have hbytes : (Clu.analyze_data_exfiltration_risk Clu.c2cfg
      [Clu.c2db, Clu.c2tr]).total_bytes_out = 0 := by decide
  have hauth : Clu.authAbuseSignals Clu.c2cfg [Clu.c2db, Clu.c2tr] = 0 := by
    unfold Clu.authAbuseSignals
    rw [show List.filter (fun e => decide (e.event_type = Clu.EventType.authentication))
      [Clu.c2db, Clu.c2tr] = [] from by decide]
    simp
  have hesc : (Clu.detect_privilege_escalation Clu.c2cfg
      [Clu.c2db, Clu.c2tr]).escalation_detected = false := by
    unfold Clu.detect_privilege_escalation
    dsimp only
    rw [hauth]
    norm_num [Clu.c2db, Clu.c2tr, Clu.hasSensitiveSeq, List.any_cons, List.any_nil,
      d1, d2, d3, d4, List.filter_cons, List.filter_nil, decide_eq_true_eq]
  have hup : Clu.upliftFlags Clu.c2cfg [Clu.c2db, Clu.c2tr] = (false, false, false) := by
    unfold Clu.upliftFlags
    dsimp only
    rw [hbytes, hfa, hesc]
    norm_num [Clu.c2cfg, Clu.mkDefaultCfg]
  unfold Clu.analyze_cluster
  rw [if_neg (by decide)]
  dsimp only
  unfold Clu.clusterRisk
  dsimp only
  rw [ht, hi, hu, hf, hg, hup]
  norm_num [Clu.upliftStep]

/-! ## Unified Realtime-to-Cluster Bridge
(`src/backend/service/anomaly/realtime_cluster_engine.py`)

The realtime anomaly engine's per-event result is represented by its label
(a parameter of `ingest`: the claims only depend on whether the label is in
`trigger_on_labels`).  Buffers are the engine's process-wide dict state,
passed explicitly.  `_run_cluster` calls the gated `ClusterAnalyzer` of the
clustering package (`Clu.analyze_cluster`). -/

namespace Bridge

/-- `UserBuffer`: capacity-bounded event deque with a last-flush timestamp;
a fresh buffer has `last_flush_ts = 0.0`. -/
structure UserBuffer where
  max_events : ℕ := 400
  window_sec : ℚ := 3600
  events : List Clu.SecurityEvent := []
  last_flush_ts : ℚ := 0

/-- `UserBuffer.add`: append, then pop from the left while over capacity. -/
def UserBuffer.add (buf : UserBuffer) (ev : Clu.SecurityEvent) : UserBuffer :=
  let evs := buf.events ++ [ev]
  { buf with events := evs.drop (evs.length - buf.max_events) }

/-- `UserBuffer.should_time_flush`. -/
def shouldTimeFlush (buf : UserBuffer) (now flush_interval : ℚ) : Bool :=
  decide (now - buf.last_flush_ts ≥ flush_interval)

/-- `_extract_user_key` on a typed `SecurityEvent`. -/
def extractUserKey (e : Clu.SecurityEvent) : String :=
  match e.entities.users with
  | [] => "user:unknown"
  | u :: _ => "user:" ++ u

structure EngineCfg where
  trigger_on_labels : List String := ["medium", "high"]
  min_events_for_cluster : ℕ := 5
  periodic_flush_sec : ℚ := 600
  user_buffer_max_events : ℕ := 400
  user_buffer_window_sec : ℚ := 3600

/-- The engine's `self.buffers` defaultdict. -/
structure EngineState where
  buffers : List (String × UserBuffer) := []

def lookupBuf : List (String × UserBuffer) → String → Option UserBuffer
  | [], _ => none
  | (k, b) :: rest, key => if k = key then some b else lookupBuf rest key

def putBuf : List (String × UserBuffer) → String → UserBuffer →
    List (String × UserBuffer)
  | [], key, b => [(key, b)]
  | (k, old) :: rest, key, b =>
    if k = key then (k, b) :: rest else (k, old) :: putBuf rest key b

/-- defaultdict access: a missing key yields a fresh buffer with the
configured capacity/window (and `last_flush_ts = 0`). -/
def getBuffer (ecfg : EngineCfg) (st : EngineState) (key : String) : UserBuffer :=
  (lookupBuf st.buffers key).getD
    { max_events := ecfg.user_buffer_max_events,
      window_sec := ecfg.user_buffer_window_sec }

structure IngestResult where
  label : String
  cluster_metrics : Option Clu.ClusterMetrics
  cluster_triggered : Bool
  user_key : String

/-- `UnifiedRealtimeClusterEngine.ingest`: score (label is the rt result),
buffer the event, and trigger a cluster run when the label is in
`trigger_on_labels` with at least `min_events_for_cluster` buffered events,
or when the periodic flush interval has elapsed since `last_flush_ts` with
at least that many events. -/
def ingest (log1p : ℕ → ℚ) (ccfg : Clu.AnalysisConfig) (ecfg : EngineCfg)
    (label : String) (now : ℚ) (ev : Clu.SecurityEvent) (st : EngineState) :
    IngestResult × EngineState :=
  let key := extractUserKey ev
  let buf := (getBuffer ecfg st key).add ev
  if ecfg.trigger_on_labels.contains label ∧
      buf.events.length ≥ ecfg.min_events_for_cluster then
    (⟨label, some (Clu.analyze_cluster log1p ccfg buf.events), true, key⟩,
     ⟨putBuf st.buffers key { buf with last_flush_ts := now }⟩)
  else if shouldTimeFlush buf now ecfg.periodic_flush_sec ∧
      buf.events.length ≥ ecfg.min_events_for_cluster then
    (⟨label, some (Clu.analyze_cluster log1p ccfg buf.events), true, key⟩,
     ⟨putBuf st.buffers key { buf with last_flush_ts := now }⟩)
  else
    (⟨label, none, false, key⟩, ⟨putBuf st.buffers key buf⟩)

theorem ingest_below_min (log1p : ℕ → ℚ) (ccfg : Clu.AnalysisConfig)
    (ecfg : EngineCfg) (label : String) (now : ℚ) (ev : Clu.SecurityEvent)
    (st : EngineState)
    (h : ((getBuffer ecfg st (extractUserKey ev)).add ev).events.length <
      ecfg.min_events_for_cluster) :
    ingest log1p ccfg ecfg label now ev st =
      (⟨label, none, false, extractUserKey ev⟩,
       ⟨putBuf st.buffers (extractUserKey ev)
         ((getBuffer ecfg st (extractUserKey ev)).add ev)⟩) := by
  unfold ingest
  dsimp only
  rw [if_neg (fun hc => absurd hc.2 (Nat.not_le.mpr h)),
      if_neg (fun hc => absurd hc.2 (Nat.not_le.mpr h))]

theorem ingest_periodic_trigger (log1p : ℕ → ℚ) (ccfg : Clu.AnalysisConfig)
    (ecfg : EngineCfg) (label : String) (now : ℚ) (ev : Clu.SecurityEvent)
    (st : EngineState)
    (hlab : ecfg.trigger_on_labels.contains label = false)
    (hsf : shouldTimeFlush ((getBuffer ecfg st (extractUserKey ev)).add ev) now
      ecfg.periodic_flush_sec = true)
    (hlen : ((getBuffer ecfg st (extractUserKey ev)).add ev).events.length ≥
      ecfg.min_events_for_cluster) :
    (ingest log1p ccfg ecfg label now ev st).1.cluster_triggered = true := by
  unfold ingest
  dsimp only
  rw [if_neg (fun hc => by rw [hlab] at hc; exact Bool.false_ne_true hc.1),
      if_pos ⟨hsf, hlen⟩]

end Bridge

/-- C9: a fresh `UserBuffer` has `last_flush_ts = 0`, so on a new engine the
periodic-flush condition `now - last_flush ≥ 600` already holds for any
wall-clock `now ≥ 600` (epoch seconds): the very first ingest that finds 5
buffered events for a user triggers a cluster run, even though every label
is "low" and fewer than 600 seconds have passed since the first ingest
(engine creation). -/
theorem C9_first_periodic_flush (log1p : ℕ → ℚ) (ccfg : Clu.AnalysisConfig)
    (ecfg : Bridge.EngineCfg)
    (e1 e2 e3 e4 e5 : Clu.SecurityEvent) (n1 n2 n3 n4 n5 : ℚ)
    (hcfg : ecfg = {})
    (hk2 : Bridge.extractUserKey e2 = Bridge.extractUserKey e1)
    (hk3 : Bridge.extractUserKey e3 = Bridge.extractUserKey e1)
    (hk4 : Bridge.extractUserKey e4 = Bridge.extractUserKey e1)
    (hk5 : Bridge.extractUserKey e5 = Bridge.extractUserKey e1)
    (hn5 : 600 ≤ n5) (helapsed : n5 - n1 < 600) :
    let s0 : Bridge.EngineState := {}
    let r1 := Bridge.ingest log1p ccfg ecfg "low" n1 e1 s0
    let r2 := Bridge.ingest log1p ccfg ecfg "low" n2 e2 r1.2
    let r3 := Bridge.ingest log1p ccfg ecfg "low" n3 e3 r2.2
    let r4 := Bridge.ingest log1p ccfg ecfg "low" n4 e4 r3.2
    let r5 := Bridge.ingest log1p ccfg ecfg "low" n5 e5 r4.2
    r1.1.cluster_triggered = false ∧ r2.1.cluster_triggered = false ∧
    r3.1.cluster_triggered = false ∧ r4.1.cluster_triggered = false ∧
    r5.1.cluster_triggered = true := by
  subst hcfg
  dsimp only
  have hs1 : (Bridge.ingest log1p ccfg {} "low" n1 e1 {}).2 =
      ⟨[(Bridge.extractUserKey e1, ⟨400, 3600, [e1], 0⟩)]⟩ := by
    rw [Bridge.ingest_below_min log1p ccfg {} "low" n1 e1 {} (by
      simp [Bridge.getBuffer, Bridge.lookupBuf, Bridge.UserBuffer.add])]
    simp [Bridge.putBuf, Bridge.getBuffer, Bridge.lookupBuf, Bridge.UserBuffer.add]
  have h2 := Bridge.ingest_below_min log1p ccfg {} "low" n2 e2
    ⟨[(Bridge.extractUserKey e1, ⟨400, 3600, [e1], 0⟩)]⟩ (by
    simp [Bridge.getBuffer, Bridge.lookupBuf, Bridge.UserBuffer.add, hk2])
  have hs2 : (Bridge.ingest log1p ccfg {} "low" n2 e2
      ⟨[(Bridge.extractUserKey e1, ⟨400, 3600, [e1], 0⟩)]⟩).2 =
      ⟨[(Bridge.extractUserKey e1, ⟨400, 3600, [e1, e2], 0⟩)]⟩ := by
    rw [h2]
    simp [Bridge.putBuf, Bridge.getBuffer, Bridge.lookupBuf,
      Bridge.UserBuffer.add, hk2]
  have h3 := Bridge.ingest_below_min log1p ccfg {} "low" n3 e3
    ⟨[(Bridge.extractUserKey e1, ⟨400, 3600, [e1, e2], 0⟩)]⟩ (by
    simp [Bridge.getBuffer, Bridge.lookupBuf, Bridge.UserBuffer.add, hk3])
  have hs3 : (Bridge.ingest log1p ccfg {} "low" n3 e3
      ⟨[(Bridge.extractUserKey e1, ⟨400, 3600, [e1, e2], 0⟩)]⟩).2 =
      ⟨[(Bridge.extractUserKey e1, ⟨400, 3600, [e1, e2, e3], 0⟩)]⟩ := by
    rw [h3]
    simp [Bridge.putBuf, Bridge.getBuffer, Bridge.lookupBuf,
      Bridge.UserBuffer.add, hk3]
  have h4 := Bridge.ingest_below_min log1p ccfg {} "low" n4 e4
    ⟨[(Bridge.extractUserKey e1, ⟨400, 3600, [e1, e2, e3], 0⟩)]⟩ (by
    simp [Bridge.getBuffer, Bridge.lookupBuf, Bridge.UserBuffer.add, hk4])
  have hs4 : (Bridge.ingest log1p ccfg {} "low" n4 e4
      ⟨[(Bridge.extractUserKey e1, ⟨400, 3600, [e1, e2, e3], 0⟩)]⟩).2 =
      ⟨[(Bridge.extractUserKey e1, ⟨400, 3600, [e1, e2, e3, e4], 0⟩)]⟩ := by
    rw [h4]
    simp [Bridge.putBuf, Bridge.getBuffer, Bridge.lookupBuf,
      Bridge.UserBuffer.add, hk4]
  have h5 := Bridge.ingest_periodic_trigger log1p ccfg {} "low" n5 e5
    ⟨[(Bridge.extractUserKey e1, ⟨400, 3600, [e1, e2, e3, e4], 0⟩)]⟩
    (by decide)
    (by
      simp only [Bridge.getBuffer, Bridge.lookupBuf, Bridge.UserBuffer.add,
        Bridge.shouldTimeFlush, hk5, if_pos, eq_self_iff_true, if_true,
        Option.getD_some]
      apply decide_eq_true
      dsimp only
      rw [sub_zero]
      exact hn5)
    (by
      simp [Bridge.getBuffer, Bridge.lookupBuf, Bridge.UserBuffer.add, hk5])
  refine ⟨?_, ?_, ?_, ?_, ?_⟩
  · rw [Bridge.ingest_below_min log1p ccfg {} "low" n1 e1 {} (by
      simp [Bridge.getBuffer, Bridge.lookupBuf, Bridge.UserBuffer.add])]
  · rw [hs1, h2]
  · rw [hs1, hs2, h3]
  · rw [hs1, hs2, hs3, h4]
  · rw [hs1, hs2, hs3, hs4]
    exact h5

/-- Witness for C9: five concrete "low"-labeled events for user alice,
ingested at epoch seconds 1000..1004, trigger a cluster run on the fifth. -/
theorem C9_first_periodic_flush_witness :
    let al : Clu.SecurityEvent :=
      { timestamp := 0, entities := { users := ["alice"] } }
    let s0 : Bridge.EngineState := {}
    let r1 := Bridge.ingest (fun _ => 0) Clu.c2cfg {} "low" 1000 al s0
    let r2 := Bridge.ingest (fun _ => 0) Clu.c2cfg {} "low" 1001 al r1.2
    let r3 := Bridge.ingest (fun _ => 0) Clu.c2cfg {} "low" 1002 al r2.2
    let r4 := Bridge.ingest (fun _ => 0) Clu.c2cfg {} "low" 1003 al r3.2
    let r5 := Bridge.ingest (fun _ => 0) Clu.c2cfg {} "low" 1004 al r4.2
    r1.1.cluster_triggered = false ∧ r2.1.cluster_triggered = false ∧
    r3.1.cluster_triggered = false ∧ r4.1.cluster_triggered = false ∧
    r5.1.cluster_triggered = true := by
  intro al s0 r1 r2 r3 r4 r5
  exact C9_first_periodic_flush (fun _ => 0) Clu.c2cfg {} al al al al al
    1000 1001 1002 1003 1004 rfl rfl rfl rfl rfl (by norm_num) (by norm_num)

namespace Api

/-- The backend data directory as read by `Service.getResponseData`:
the persisted `facade/data/cluster_output_2.json` (cluster/risk result)
and `facade/data/story_output.json` (narrative result). -/
structure DataDir where
  cluster_output_2 : Narr.JVal
  story_output : Narr.JVal

/-- `Service.getResponseData`: read back the two persisted artifacts and
return them under the fixed keys `json1` and `json2`. -/
def getResponseData (d : DataDir) : Narr.JVal :=
  .obj [("json1", d.cluster_output_2), ("json2", d.story_output)]

/-- `Service.upload`: run the four pipeline stages — preprocessor,
clustering, risk scoring, narrative generation, each an abstract
transformer of the data directory — then return `getResponseData` of the
resulting directory together with that directory. -/
def upload (F : Type) (run_preprocessor : List F → DataDir → DataDir)
    (clustering_analyze risk_run gemini_request : DataDir → DataDir)
    (files : List F) (d : DataDir) : Narr.JVal × DataDir :=
  let d1 := run_preprocessor files d
  let d2 := clustering_analyze d1
  let d3 := risk_run d2
  let d4 := gemini_request d3
  (getResponseData d4, d4)

/-- `upload_files` (the POST /upload controller): call
`service.upload(files)`, discard its return value, and respond with the
constant string literal. -/
def upload_files (F : Type) (run_preprocessor : List F → DataDir → DataDir)
    (clustering_analyze risk_run gemini_request : DataDir → DataDir)
    (files : List F) (d : DataDir) : Narr.JVal × DataDir :=
  let r := upload F run_preprocessor clustering_analyze risk_run
    gemini_request files d
  (.str "Files upload API is working!", r.2)

end Api

/-- C1: code bug — for every pipeline outcome and every content of the
data directory, the POST /upload controller's response body is the
constant string "Files upload API is working!", and it is never equal to
`getResponseData` of any data directory (the json1/json2 two-artifact
object that `Service.upload` computes and the frontend reads). -/
theorem C1_upload_body_is_constant_string (F : Type)
    (run_preprocessor : List F → Api.DataDir → Api.DataDir)
    (clustering_analyze risk_run gemini_request : Api.DataDir → Api.DataDir)
    (files : List F) (d : Api.DataDir) :
    (Api.upload_files F run_preprocessor clustering_analyze risk_run
      gemini_request files d).1 =
      Narr.JVal.str "Files upload API is working!" ∧
    ∀ d' : Api.DataDir,
      (Api.upload_files F run_preprocessor clustering_analyze risk_run
        gemini_request files d).1 ≠ Api.getResponseData d' := by
  refine ⟨rfl, fun d' h => ?_⟩
  exact Narr.JVal.noConfusion h

end StoryTeller
